import Mathlib

/-!
Verification of the chess-engine core of `ce-games` (shallow embedding).

The definitions below are transcribed from the C sources under
`src/chess/engine/src/` (`types.h`, `board.c`, `movegen.c`, `engine.c`,
`search.c`, `tt.c`, `eval.c`, `zobrist.c`).  Machine integers are modelled
as `Nat`/`Int`; `uint8_t` square arithmetic wraps mod 256 (`addOff`);
`zhash_t` is the 24-bit eZ80 `unsigned int` of `types.h`.  The 128-entry
`squares[]` array is modelled as a function that is meaningful on indices
0..127; `board_init` additionally fills the 128 bytes after the array with
the sentinel (a deliberate out-of-array hack in the C code), which the
model reflects by having well-formed boards return the sentinel `0xFF` on
every index outside the valid 0x88 range.  While-loops over rays are
embedded with an explicit fuel that is large enough for every terminating
execution of the source loop.
-/

namespace CE

/-! ### types.h: piece encoding, 0x88 squares, move flags -/

def PIECE_NONE : Nat := 0
def OFFBOARD : Nat := 0xFF
def PIECE_PAWN : Nat := 1
def PIECE_KNIGHT : Nat := 2
def PIECE_BISHOP : Nat := 3
def PIECE_ROOK : Nat := 4
def PIECE_QUEEN : Nat := 5
def PIECE_KING : Nat := 6

def COLOR_WHITE : Nat := 0x00
def COLOR_BLACK : Nat := 0x80

def MAKE_PIECE (color ty : Nat) : Nat := color ||| ty
def PIECE_TYPE (p : Nat) : Nat := p &&& 0x07
def PIECE_COLOR (p : Nat) : Nat := p &&& 0x80
def IS_WHITE (p : Nat) : Bool := p &&& 0x80 == 0
def IS_BLACK (p : Nat) : Bool := p &&& 0x80 != 0

def WHITE : Nat := 0
def BLACK : Nat := 1

/-- `uint8_t` addition of a (possibly negative) direction offset:
`target = sq + dir` truncated to 8 bits, exactly as in the C sources. -/
def addOff (sq : Nat) (d : Int) : Nat := (((sq : Int) + d).emod 256).toNat

def RC_TO_SQ (r c : Nat) : Nat := r * 16 + c
def SQ_TO_ROW (sq : Nat) : Nat := sq >>> 4
def SQ_TO_COL (sq : Nat) : Nat := sq &&& 7
def SQ_VALID (sq : Nat) : Bool := sq &&& 0x88 == 0
def SQ_TO_SQ64 (sq : Nat) : Nat := ((sq >>> 1) &&& 0x38) ||| (sq &&& 7)
def SQ64_TO_SQ (s64 : Nat) : Nat := ((s64 &&& 0x38) <<< 1) ||| (s64 &&& 7)

def SQ_A8 : Nat := 0x00
def SQ_E8 : Nat := 0x04
def SQ_H8 : Nat := 0x07
def SQ_A1 : Nat := 0x70
def SQ_E1 : Nat := 0x74
def SQ_H1 : Nat := 0x77
def SQ_NONE : Nat := 0xFF

def CASTLE_WK : Nat := 0x01
def CASTLE_WQ : Nat := 0x02
def CASTLE_BK : Nat := 0x04
def CASTLE_BQ : Nat := 0x08
def CASTLE_ALL : Nat := 0x0F

def FLAG_CAPTURE : Nat := 0x01
def FLAG_CASTLE : Nat := 0x02
def FLAG_EN_PASSANT : Nat := 0x04
def FLAG_PROMOTION : Nat := 0x08
def FLAG_PROMO_Q : Nat := 0x00
def FLAG_PROMO_R : Nat := 0x10
def FLAG_PROMO_B : Nat := 0x20
def FLAG_PROMO_N : Nat := 0x30
def FLAG_PROMO_MASK : Nat := 0x30
def FLAG_DOUBLE_PUSH : Nat := 0x40

/-- `move_t` from types.h (`from`, `to`, `flags`, each a `uint8_t`). -/
structure Move where
  fromSq : Nat
  toSq : Nat
  flags : Nat
  deriving DecidableEq, Repr

def MOVE_NONE : Move := ⟨SQ_NONE, SQ_NONE, 0⟩

def SCORE_INF : Int := 30000
def SCORE_MATE : Int := 29000
def SCORE_DRAW : Int := 0
def MAX_PLY : Nat := 64

/-! ### board.h: board state -/

/-- Point update of a function, used to model array writes. -/
def upd {α : Type} (f : Nat → α) (i : Nat) (v : α) : Nat → α :=
  fun j => if j = i then v else f j

/-- `board_t` from board.h.  Array fields are modelled as functions whose
meaningful domain is the C array's index range. -/
structure Board where
  squares : Nat → Nat
  pieceList : Nat → Nat → Nat
  pieceIndex : Nat → Nat
  pieceCount : Nat → Nat
  bishopCount : Nat → Nat
  kingSq : Nat → Nat
  side : Nat
  castling : Nat
  epSquare : Nat
  halfmove : Nat
  fullmove : Nat
  pawnHash : Nat
  hash : Nat
  lock : Nat
  mg : Nat → Int
  eg : Nat → Int
  phase : Nat

/-- `undo_t` from board.h. -/
structure Undo where
  captured : Nat
  castling : Nat
  epSquare : Nat
  halfmove : Nat
  fullmove : Nat
  pawnHash : Nat
  hash : Nat
  lock : Nat
  movedPiece : Nat
  flags : Nat
  deriving DecidableEq, Repr

/-! ### movegen.c -/

def knightOffsets : List Int := [-33, -31, -18, -14, 14, 18, 31, 33]
def bishopOffsets : List Int := [-17, -15, 15, 17]
def rookOffsets : List Int := [-16, -1, 1, 16]
def kingOffsets : List Int := [-17, -16, -15, -1, 1, 15, 16, 17]

def GEN_ALL : Nat := 0
def GEN_CAPTURES : Nat := 1
def GEN_QUIETS : Nat := 2

def isEnemy (piece side : Nat) : Bool :=
  if piece = PIECE_NONE then false
  else (if IS_BLACK piece then BLACK else WHITE) != side

def mkMove (f t fl : Nat) : Move := ⟨f, t, fl⟩

/-- Pawn promotion expansion used by `gen_pawn_moves`. -/
def pawnPromoList (sq target extra : Nat) : List Move :=
  [ mkMove sq target (extra ||| FLAG_PROMOTION ||| FLAG_PROMO_Q),
    mkMove sq target (extra ||| FLAG_PROMOTION ||| FLAG_PROMO_R),
    mkMove sq target (extra ||| FLAG_PROMOTION ||| FLAG_PROMO_B),
    mkMove sq target (extra ||| FLAG_PROMOTION ||| FLAG_PROMO_N) ]

/-- `gen_pawn_moves` from movegen.c. -/
def genPawnMoves (b : Board) (sq side : Nat) (mode : Nat) : List Move :=
  let dir : Int := if side = WHITE then -16 else 16
  let startRow : Nat := if side = WHITE then 6 else 1
  let promoRow : Nat := if side = WHITE then 0 else 7
  let row := SQ_TO_ROW sq
  let pushes : List Move :=
    if mode ≠ GEN_CAPTURES then
      let target := addOff sq dir
      if SQ_VALID target ∧ b.squares target = PIECE_NONE then
        let single :=
          if SQ_TO_ROW target = promoRow then pawnPromoList sq target 0
          else [mkMove sq target 0]
        let dbl :=
          if row = startRow then
            let target2 := addOff sq (dir + dir)
            if SQ_VALID target2 ∧ b.squares target2 = PIECE_NONE then
              [mkMove sq target2 FLAG_DOUBLE_PUSH]
            else []
          else []
        single ++ dbl
      else []
    else []
  let caps : List Move :=
    if mode ≠ GEN_QUIETS then
      (([dir - 1, dir + 1] : List Int).map (fun cd =>
        let target := addOff sq cd
        if ¬ SQ_VALID target then []
        else if isEnemy (b.squares target) side then
          if SQ_TO_ROW target = promoRow then pawnPromoList sq target FLAG_CAPTURE
          else [mkMove sq target FLAG_CAPTURE]
        else if target = b.epSquare then
          [mkMove sq target (FLAG_CAPTURE ||| FLAG_EN_PASSANT)]
        else [])).flatten
    else []
  pushes ++ caps

/-- `gen_knight_moves` / the non-castling part of `gen_king_moves`. -/
def genOffsetMoves (b : Board) (sq side : Nat) (offs : List Int) (mode : Nat) :
    List Move :=
  (offs.map (fun off =>
    let target := addOff sq off
    if ¬ SQ_VALID target then []
    else
      let occ := b.squares target
      if occ = PIECE_NONE then
        if mode ≠ GEN_CAPTURES then [mkMove sq target 0] else []
      else if isEnemy occ side then
        if mode ≠ GEN_QUIETS then [mkMove sq target FLAG_CAPTURE] else []
      else [])).flatten

/-- One ray of `gen_sliding_moves`: `while (SQ_VALID(target)) { ... }`,
embedded with fuel (8 steps always suffice on the 0x88 board). -/
def genSlideRay (b : Board) (sq side : Nat) (dir : Int) (mode : Nat) :
    Nat → Nat → List Move
  | 0, _ => []
  | fuel + 1, target =>
    if ¬ SQ_VALID target then []
    else
      let occ := b.squares target
      if occ = PIECE_NONE then
        (if mode ≠ GEN_CAPTURES then [mkMove sq target 0] else []) ++
          genSlideRay b sq side dir mode fuel (addOff target dir)
      else
        if isEnemy occ side ∧ mode ≠ GEN_QUIETS then
          [mkMove sq target FLAG_CAPTURE]
        else []

def genSlidingMoves (b : Board) (sq side : Nat) (offs : List Int) (mode : Nat) :
    List Move :=
  (offs.map (fun dir => genSlideRay b sq side dir mode 128 (addOff sq dir))).flatten

/-- One ray of the slider scans in `is_square_attacked`. -/
def attackRay (b : Board) (attackerColor : Nat) (tys : List Nat) (dir : Int) :
    Nat → Nat → Bool
  | 0, _ => false
  | fuel + 1, target =>
    if ¬ SQ_VALID target then false
    else
      let p := b.squares target
      if p ≠ PIECE_NONE then
        PIECE_COLOR p = attackerColor ∧ PIECE_TYPE p ∈ tys
      else attackRay b attackerColor tys dir fuel (addOff target dir)

/-- `is_square_attacked` from movegen.c. -/
def isSquareAttacked (b : Board) (sq bySide : Nat) : Bool :=
  let attackerColor := if bySide = WHITE then COLOR_WHITE else COLOR_BLACK
  let knight := knightOffsets.any (fun off =>
    let target := addOff sq off
    SQ_VALID target ∧
      (let p := b.squares target
       p ≠ PIECE_NONE ∧ PIECE_COLOR p = attackerColor ∧ PIECE_TYPE p = PIECE_KNIGHT))
  let pawn :=
    let pawnDir : Int := if bySide = WHITE then 16 else -16
    let pawnPiece := MAKE_PIECE attackerColor PIECE_PAWN
    (let target := addOff sq (pawnDir - 1)
     SQ_VALID target ∧ b.squares target = pawnPiece) ∨
    (let target := addOff sq (pawnDir + 1)
     SQ_VALID target ∧ b.squares target = pawnPiece)
  let king := kingOffsets.any (fun off =>
    let target := addOff sq off
    SQ_VALID target ∧
      (let p := b.squares target
       p ≠ PIECE_NONE ∧ PIECE_COLOR p = attackerColor ∧ PIECE_TYPE p = PIECE_KING))
  let diag := bishopOffsets.any (fun dir =>
    attackRay b attackerColor [PIECE_BISHOP, PIECE_QUEEN] dir 128 (addOff sq dir))
  let orth := rookOffsets.any (fun dir =>
    attackRay b attackerColor [PIECE_ROOK, PIECE_QUEEN] dir 128 (addOff sq dir))
  knight || pawn || king || diag || orth

/-- `board_is_legal` from movegen.h. -/
def boardIsLegal (b : Board) : Bool :=
  let prevSide := b.side ^^^ 1
  ! isSquareAttacked b (b.kingSq prevSide) b.side

/-- `gen_king_moves` from movegen.c, including castling. -/
def genKingMoves (b : Board) (sq side : Nat) (mode : Nat) : List Move :=
  let normal := genOffsetMoves b sq side kingOffsets mode
  let castles :=
    if mode ≠ GEN_CAPTURES then
      let wRook := MAKE_PIECE COLOR_WHITE PIECE_ROOK
      let bRook := MAKE_PIECE COLOR_BLACK PIECE_ROOK
      if side = WHITE ∧ sq = SQ_E1 ∧ b.castling &&& (CASTLE_WK ||| CASTLE_WQ) ≠ 0 then
        if isSquareAttacked b SQ_E1 BLACK then []
        else
          (if b.castling &&& CASTLE_WK ≠ 0 ∧
              b.squares SQ_H1 = wRook ∧
              b.squares (SQ_E1 + 1) = PIECE_NONE ∧
              b.squares (SQ_E1 + 2) = PIECE_NONE ∧
              ¬ isSquareAttacked b (SQ_E1 + 1) BLACK ∧
              ¬ isSquareAttacked b (SQ_E1 + 2) BLACK then
            [mkMove SQ_E1 (SQ_E1 + 2) FLAG_CASTLE]
          else []) ++
          (if b.castling &&& CASTLE_WQ ≠ 0 ∧
              b.squares SQ_A1 = wRook ∧
              b.squares (SQ_E1 - 1) = PIECE_NONE ∧
              b.squares (SQ_E1 - 2) = PIECE_NONE ∧
              b.squares (SQ_E1 - 3) = PIECE_NONE ∧
              ¬ isSquareAttacked b (SQ_E1 - 1) BLACK ∧
              ¬ isSquareAttacked b (SQ_E1 - 2) BLACK then
            [mkMove SQ_E1 (SQ_E1 - 2) FLAG_CASTLE]
          else [])
      else if side = BLACK ∧ sq = SQ_E8 ∧
          b.castling &&& (CASTLE_BK ||| CASTLE_BQ) ≠ 0 then
        if isSquareAttacked b SQ_E8 WHITE then []
        else
          (if b.castling &&& CASTLE_BK ≠ 0 ∧
              b.squares SQ_H8 = bRook ∧
              b.squares (SQ_E8 + 1) = PIECE_NONE ∧
              b.squares (SQ_E8 + 2) = PIECE_NONE ∧
              ¬ isSquareAttacked b (SQ_E8 + 1) WHITE ∧
              ¬ isSquareAttacked b (SQ_E8 + 2) WHITE then
            [mkMove SQ_E8 (SQ_E8 + 2) FLAG_CASTLE]
          else []) ++
          (if b.castling &&& CASTLE_BQ ≠ 0 ∧
              b.squares SQ_A8 = bRook ∧
              b.squares (SQ_E8 - 1) = PIECE_NONE ∧
              b.squares (SQ_E8 - 2) = PIECE_NONE ∧
              b.squares (SQ_E8 - 3) = PIECE_NONE ∧
              ¬ isSquareAttacked b (SQ_E8 - 1) WHITE ∧
              ¬ isSquareAttacked b (SQ_E8 - 2) WHITE then
            [mkMove SQ_E8 (SQ_E8 - 2) FLAG_CASTLE]
          else [])
      else []
    else []
  normal ++ castles

/-- `gen_piece_moves` from movegen.c. -/
def genPieceMoves (b : Board) (sq side : Nat) (mode : Nat) : List Move :=
  let ty := PIECE_TYPE (b.squares sq)
  if ty = PIECE_PAWN then genPawnMoves b sq side mode
  else if ty = PIECE_KNIGHT then genOffsetMoves b sq side knightOffsets mode
  else if ty = PIECE_BISHOP then genSlidingMoves b sq side bishopOffsets mode
  else if ty = PIECE_ROOK then genSlidingMoves b sq side rookOffsets mode
  else if ty = PIECE_QUEEN then
    genSlidingMoves b sq side bishopOffsets mode ++
      genSlidingMoves b sq side rookOffsets mode
  else if ty = PIECE_KING then genKingMoves b sq side mode
  else []

/-- `generate_moves` from movegen.c. -/
def generateMoves (b : Board) (mode : Nat) : List Move :=
  ((List.range (b.pieceCount b.side)).map (fun i =>
    genPieceMoves b (b.pieceList b.side i) b.side mode)).flatten

/-- `generate_moves_from` from movegen.c. -/
def generateMovesFrom (b : Board) (fromSq : Nat) : List Move :=
  let piece := b.squares fromSq
  if piece = PIECE_NONE then []
  else if (if IS_BLACK piece then BLACK else WHITE) ≠ b.side then []
  else genPieceMoves b fromSq b.side GEN_ALL

/-! ### zobrist.c: xorshift32 PRNG and key tables

`zhash_t` is the eZ80 24-bit `unsigned int` (types.h); assigning a
`uint32_t` key into it truncates to 24 bits, modelled by `ZH`. -/

def prngStep (x : Nat) : Nat :=
  let a := (x ^^^ (x <<< 13)) % 4294967296
  let b := a ^^^ (a >>> 17)
  (b ^^^ (b <<< 5)) % 4294967296

/-- State of the zobrist PRNG after `n` calls of `prng_next`, seeded with
the default seed (`zobrist_init(0)` as called from `board_init`).
`prngState n` for `n ≥ 1` is the n-th value returned by `prng_next`. -/
def prngState : Nat → Nat
  | 0 => 0x12345678
  | n + 1 => prngStep (prngState n)

/-- Truncation of a 32-bit key to the 24-bit `zhash_t`. -/
def ZH (v : Nat) : Nat := v % 0x1000000

def zobristPiece (i j : Nat) : Nat := prngState (i * 64 + j + 1)
def zobristCastle (c : Nat) : Nat := prngState (769 + c)
def zobristEpFile (f : Nat) : Nat := prngState (785 + f)
def zobristSide : Nat := prngState 793
def lockPiece (i j : Nat) : Nat := prngState (794 + i * 64 + j) >>> 16
def lockCastle (c : Nat) : Nat := prngState (1562 + c) >>> 16
def lockEpFile (f : Nat) : Nat := prngState (1578 + f) >>> 16
def lockSide : Nat := prngState 1586 >>> 16

/-- `zobrist_piece_index` from zobrist.h. -/
def zobristPieceIndex (piece : Nat) : Nat :=
  (if IS_BLACK piece then 6 else 0) + PIECE_TYPE piece - 1

/-! ### eval.h / eval.c tables used by the incremental board scores -/

def phaseWeight (i : Nat) : Nat := [0, 1, 1, 2, 4, 0].getD i 0

def EVAL_INDEX (ty : Nat) : Nat := ty - 1
def PST_FLIP (sq64 : Nat) : Nat := sq64 ^^^ 56

def mgTableData : List (List Int) := [
  [ 77, 77, 77, 77, 77, 77, 77, 77,
    168, 202, 133, 165, 140, 194, 108, 66,
    71, 83, 101, 105, 137, 129, 100, 58,
    63, 89, 82, 96, 98, 88, 92, 55,
    51, 75, 72, 88, 92, 82, 86, 53,
    52, 73, 73, 67, 79, 79, 107, 65,
    44, 76, 58, 55, 63, 99, 112, 56,
    77, 77, 77, 77, 77, 77, 77, 77 ],
  [ 153, 223, 273, 259, 359, 216, 290, 207,
    238, 267, 368, 336, 324, 359, 310, 288,
    261, 358, 337, 362, 379, 420, 369, 343,
    295, 319, 321, 351, 337, 366, 320, 323,
    292, 307, 318, 315, 329, 321, 322, 296,
    283, 295, 314, 313, 321, 319, 326, 289,
    277, 256, 293, 301, 303, 320, 291, 286,
    209, 285, 251, 274, 288, 278, 286, 283 ],
  [ 300, 330, 253, 293, 304, 289, 332, 319,
    303, 340, 310, 315, 353, 379, 342, 284,
    312, 359, 365, 362, 357, 371, 359, 324,
    323, 331, 343, 371, 359, 359, 332, 324,
    321, 338, 338, 349, 357, 337, 335, 330,
    326, 340, 340, 340, 339, 350, 342, 335,
    330, 340, 340, 326, 332, 345, 356, 327,
    297, 324, 314, 307, 315, 315, 291, 307 ],
  [ 445, 453, 445, 461, 472, 425, 444, 454,
    440, 445, 467, 471, 487, 475, 439, 455,
    412, 433, 439, 448, 432, 456, 470, 431,
    396, 407, 423, 439, 438, 447, 410, 399,
    385, 394, 406, 416, 425, 411, 422, 397,
    377, 395, 403, 402, 419, 417, 412, 388,
    378, 403, 399, 409, 416, 426, 411, 355,
    400, 405, 418, 432, 431, 423, 384, 394 ],
  [ 970, 997, 1026, 1009, 1055, 1040, 1039, 1041,
    974, 960, 993, 998, 982, 1053, 1025, 1050,
    985, 981, 1004, 1005, 1026, 1052, 1043, 1053,
    971, 971, 982, 982, 996, 1014, 996, 998,
    989, 972, 989, 988, 996, 994, 1000, 995,
    984, 999, 987, 996, 993, 999, 1011, 1002,
    963, 990, 1008, 999, 1005, 1012, 995, 998,
    996, 980, 989, 1007, 983, 973, 967, 949 ],
  [ -65, 23, 16, -15, -56, -34, 2, 13,
    29, -1, -20, -7, -8, -4, -38, -29,
    -9, 24, 2, -16, -20, 6, 22, -22,
    -17, -20, -12, -27, -30, -25, -23, -36,
    -49, -1, -27, -39, -46, -44, -33, -51,
    -14, -14, -22, -46, -44, -30, -15, -27,
    1, 7, -8, -64, -43, -16, 9, 8,
    -15, 36, 12, -54, 8, -28, 24, 14 ]]

def egTableData : List (List Int) := [
  [ 105, 105, 105, 105, 105, 105, 105, 105,
    303, 297, 280, 254, 268, 251, 288, 313,
    209, 216, 199, 179, 167, 164, 196, 198,
    140, 131, 119, 110, 102, 109, 123, 123,
    119, 115, 101, 97, 97, 96, 108, 103,
    109, 112, 98, 106, 105, 99, 103, 96,
    119, 113, 113, 93, 119, 105, 107, 97,
    105, 105, 105, 105, 105, 105, 105, 105 ],
  [ 241, 262, 289, 273, 270, 274, 235, 196,
    276, 295, 276, 301, 293, 276, 277, 247,
    277, 282, 314, 313, 302, 293, 283, 259,
    285, 306, 327, 327, 327, 315, 312, 284,
    284, 297, 320, 330, 320, 322, 307, 284,
    278, 300, 302, 319, 314, 300, 282, 279,
    258, 282, 292, 298, 301, 282, 278, 256,
    272, 248, 278, 287, 279, 284, 249, 234 ],
  [ 291, 284, 294, 298, 299, 297, 288, 281,
    298, 302, 313, 293, 303, 292, 302, 291,
    308, 298, 306, 305, 304, 312, 306, 310,
    303, 315, 318, 315, 320, 316, 309, 308,
    300, 309, 319, 325, 313, 316, 303, 297,
    293, 303, 314, 316, 319, 309, 299, 290,
    291, 287, 299, 305, 310, 297, 290, 278,
    282, 297, 282, 301, 297, 289, 301, 288 ],
  [ 575, 572, 581, 578, 574, 574, 570, 567,
    573, 575, 575, 573, 558, 564, 570, 564,
    569, 569, 569, 567, 566, 558, 556, 558,
    566, 564, 575, 562, 563, 562, 560, 563,
    564, 567, 570, 566, 556, 555, 552, 549,
    557, 561, 556, 560, 554, 548, 552, 544,
    555, 555, 561, 563, 551, 551, 549, 558,
    551, 563, 564, 560, 556, 547, 566, 539 ],
  [ 986, 1019, 1019, 1024, 1024, 1016, 1006, 1017,
    978, 1017, 1030, 1039, 1057, 1022, 1028, 996,
    974, 1002, 1005, 1048, 1046, 1033, 1016, 1005,
    999, 1019, 1021, 1043, 1056, 1038, 1056, 1034,
    976, 1025, 1016, 1046, 1029, 1032, 1037, 1020,
    979, 967, 1012, 1002, 1005, 1014, 1006, 1001,
    972, 971, 964, 979, 979, 971, 957, 962,
    961, 966, 972, 950, 990, 962, 974, 952 ],
  [ -76, -36, -18, -18, -11, 15, 4, -17,
    -12, 17, 14, 17, 17, 39, 24, 11,
    10, 17, 24, 15, 21, 46, 45, 13,
    -8, 23, 25, 28, 27, 34, 27, 3,
    -18, -4, 22, 25, 28, 24, 9, -11,
    -20, -3, 11, 22, 24, 16, 7, -9,
    -28, -11, 4, 13, 14, 4, -5, -17,
    -54, -35, -22, -11, -29, -14, -25, -44 ]]

def mgTable (i sq : Nat) : Int := (mgTableData.getD i []).getD sq 0
def egTable (i sq : Nat) : Int := (egTableData.getD i []).getD sq 0

/-! ### board.c: castling-rights mask, piece-list operations, make/unmake -/

/-- `castling_mask` from board.c (0xFF everywhere except the six special
squares; off-board entries are 0xFF as well). -/
def castlingMask (sq : Nat) : Nat :=
  if sq = 0x00 then 0xF7          -- a8: ~CASTLE_BQ
  else if sq = 0x04 then 0xF3     -- e8: ~(CASTLE_BK|CASTLE_BQ)
  else if sq = 0x07 then 0xFB     -- h8: ~CASTLE_BK
  else if sq = 0x70 then 0xFD     -- a1: ~CASTLE_WQ
  else if sq = 0x74 then 0xFC     -- e1: ~(CASTLE_WK|CASTLE_WQ)
  else if sq = 0x77 then 0xFE     -- h1: ~CASTLE_WK
  else 0xFF

def PLIST_INVALID : Nat := 0xFF

/-- Write to the two-dimensional `piece_list[side][idx]`. -/
def updPL (f : Nat → Nat → Nat) (s i v : Nat) : Nat → Nat → Nat :=
  fun s' i' => if s' = s ∧ i' = i then v else f s' i'

/-- `plist_remove` from board.c (swap with last). -/
def plistRemove (b : Board) (side sq : Nat) : Board :=
  let idx := b.pieceIndex sq
  if idx = PLIST_INVALID ∨ b.pieceCount side ≤ idx then b
  else
    let lastIdx := b.pieceCount side - 1
    let lastSq := b.pieceList side lastIdx
    let b1 := { b with pieceCount := upd b.pieceCount side lastIdx }
    let b2 :=
      if idx ≠ lastIdx then
        { b1 with pieceList := updPL b1.pieceList side idx lastSq,
                  pieceIndex := upd b1.pieceIndex lastSq idx }
      else b1
    { b2 with pieceIndex := upd b2.pieceIndex sq PLIST_INVALID }

/-- `plist_move` from board.c. -/
def plistMove (b : Board) (side oldSq newSq : Nat) : Board :=
  let idx := b.pieceIndex oldSq
  if idx = PLIST_INVALID ∨ b.pieceCount side ≤ idx then b
  else
    { b with pieceList := updPL b.pieceList side idx newSq,
             pieceIndex := upd (upd b.pieceIndex newSq idx) oldSq PLIST_INVALID }

/-- `uint8_t` decrement/increment for the phase and bishop counters. -/
def dec8 (n : Nat) : Nat := (n + 255) % 256
def inc8 (n : Nat) : Nat := (n + 1) % 256
def add8 (n w : Nat) : Nat := (n + w) % 256
def sub8 (n w : Nat) : Nat := (n + 256 - w % 256) % 256

/-- Promotion piece type from the move flags (`switch` in board.c). -/
def promoTypeOf (flags : Nat) : Nat :=
  if flags &&& FLAG_PROMO_MASK = FLAG_PROMO_R then PIECE_ROOK
  else if flags &&& FLAG_PROMO_MASK = FLAG_PROMO_B then PIECE_BISHOP
  else if flags &&& FLAG_PROMO_MASK = FLAG_PROMO_N then PIECE_KNIGHT
  else PIECE_QUEEN

/-! `board_make` / `board_unmake` from board.c, transcribed statement by
statement.  Each numbered step of the C function is a named stage so that
the round-trip proofs can reason stage by stage; composing the stages in
order reproduces the C control flow exactly. -/

/-- The undo snapshot taken at the top of `board_make`. -/
def mkUndo (b : Board) (m : Move) : Undo :=
  { captured := b.squares m.toSq, castling := b.castling, epSquare := b.epSquare,
    halfmove := b.halfmove, fullmove := b.fullmove, pawnHash := b.pawnHash,
    hash := b.hash, lock := b.lock, movedPiece := b.squares m.fromSq,
    flags := m.flags }

/-- Halfmove-clock update (reset on pawn move or capture, else saturating
increment). -/
def mkClock (b : Board) (ty flags : Nat) : Board :=
  { b with halfmove :=
      if ty = PIECE_PAWN ∨ flags &&& FLAG_CAPTURE ≠ 0 then 0
      else if b.halfmove < 255 then b.halfmove + 1 else b.halfmove }

/-- Hash/lock/pawn-hash and mg/eg removal of piece `piece` of side `s`
standing on `sq` (used for the mover at its origin). -/
def mkLiftPiece (b : Board) (s piece sq : Nat) : Board :=
  let sq64 := SQ_TO_SQ64 sq
  let pidx := zobristPieceIndex piece
  let eidx := EVAL_INDEX (PIECE_TYPE piece)
  let pst := if s = WHITE then sq64 else PST_FLIP sq64
  { b with
    hash := b.hash ^^^ ZH (zobristPiece pidx sq64),
    lock := b.lock ^^^ lockPiece pidx sq64,
    pawnHash := if PIECE_TYPE piece = PIECE_PAWN then
                  b.pawnHash ^^^ ZH (zobristPiece pidx sq64)
                else b.pawnHash,
    mg := upd b.mg s (b.mg s - mgTable eidx pst),
    eg := upd b.eg s (b.eg s - egTable eidx pst) }

/-- Hash/lock/pawn-hash and mg/eg/phase removal of a captured piece of
side `o` on square `sq`. -/
def mkCaptureScores (b : Board) (o capPiece sq : Nat) : Board :=
  let sq64 := SQ_TO_SQ64 sq
  let pidx := zobristPieceIndex capPiece
  let eidx := EVAL_INDEX (PIECE_TYPE capPiece)
  let pst := if o = WHITE then sq64 else PST_FLIP sq64
  { b with
    hash := b.hash ^^^ ZH (zobristPiece pidx sq64),
    lock := b.lock ^^^ lockPiece pidx sq64,
    pawnHash := if PIECE_TYPE capPiece = PIECE_PAWN then
                  b.pawnHash ^^^ ZH (zobristPiece pidx sq64)
                else b.pawnHash,
    mg := upd b.mg o (b.mg o - mgTable eidx pst),
    eg := upd b.eg o (b.eg o - egTable eidx pst),
    phase := sub8 b.phase (phaseWeight eidx) }

/-- The en-passant capture branch of `board_make` (the enemy pawn sits on
`capSq`, not on the destination). -/
def mkEpCapture (b : Board) (opp capSq : Nat) : Board :=
  let capPiece := b.squares capSq
  if capPiece ≠ PIECE_NONE then
    let b1 := mkCaptureScores b opp capPiece capSq
    let b2 := { b1 with squares := upd b1.squares capSq PIECE_NONE }
    let b3 := plistRemove b2 opp capSq
    if PIECE_TYPE capPiece = PIECE_BISHOP then
      { b3 with bishopCount := upd b3.bishopCount opp (dec8 (b3.bishopCount opp)) }
    else b3
  else b

/-- The normal capture branch of `board_make`. -/
def mkCapture (b : Board) (opp toSq captured : Nat) : Board :=
  let b1 := mkCaptureScores b opp captured toSq
  let b2 := plistRemove b1 opp toSq
  if PIECE_TYPE captured = PIECE_BISHOP then
    { b2 with bishopCount := upd b2.bishopCount opp (dec8 (b2.bishopCount opp)) }
  else b2

/-- Move the piece on the squares array and in the piece list. -/
def mkMovePiece (b : Board) (side piece fromSq toSq : Nat) : Board :=
  let b1 := { b with squares := upd (upd b.squares fromSq PIECE_NONE) toSq piece }
  plistMove b1 side fromSq toSq

/-- Hash/lock/pawn-hash and mg/eg addition of the mover at its
destination. -/
def mkDropPiece (b : Board) (s piece sq : Nat) : Board :=
  let sq64 := SQ_TO_SQ64 sq
  let pidx := zobristPieceIndex piece
  let eidx := EVAL_INDEX (PIECE_TYPE piece)
  let pst := if s = WHITE then sq64 else PST_FLIP sq64
  { b with
    hash := b.hash ^^^ ZH (zobristPiece pidx sq64),
    lock := b.lock ^^^ lockPiece pidx sq64,
    pawnHash := if PIECE_TYPE piece = PIECE_PAWN then
                  b.pawnHash ^^^ ZH (zobristPiece pidx sq64)
                else b.pawnHash,
    mg := upd b.mg s (b.mg s + mgTable eidx pst),
    eg := upd b.eg s (b.eg s + egTable eidx pst) }

/-- The promotion branch of `board_make` (`piece` is the moved pawn). -/
def mkPromo (b : Board) (side piece flags toSq : Nat) : Board :=
  let to64 := SQ_TO_SQ64 toSq
  let pidx := zobristPieceIndex piece
  let eidx := EVAL_INDEX (PIECE_TYPE piece)
  let pstTo := if side = WHITE then to64 else PST_FLIP to64
  let promoType := promoTypeOf flags
  let promoPiece := MAKE_PIECE (if side = WHITE then COLOR_WHITE else COLOR_BLACK)
    promoType
  let promoPidx := zobristPieceIndex promoPiece
  let promoEidx := EVAL_INDEX promoType
  let b1 := { b with
    hash := b.hash ^^^ ZH (zobristPiece pidx to64) ^^^ ZH (zobristPiece promoPidx to64),
    lock := b.lock ^^^ lockPiece pidx to64 ^^^ lockPiece promoPidx to64,
    pawnHash := b.pawnHash ^^^ ZH (zobristPiece pidx to64),
    mg := upd b.mg side (b.mg side - mgTable eidx pstTo + mgTable promoEidx pstTo),
    eg := upd b.eg side (b.eg side - egTable eidx pstTo + egTable promoEidx pstTo),
    phase := add8 b.phase (phaseWeight promoEidx) }
  let b2 :=
    if promoType = PIECE_BISHOP then
      { b1 with bishopCount := upd b1.bishopCount side (inc8 (b1.bishopCount side)) }
    else b1
  { b2 with squares := upd b2.squares toSq promoPiece }

/-- Rook source/destination squares of a castling move. -/
def castleRookFrom (fromSq toSq : Nat) : Nat :=
  if fromSq < toSq then addOff fromSq 3 else addOff fromSq (-4)

def castleRookTo (fromSq toSq : Nat) : Nat :=
  if fromSq < toSq then addOff fromSq 1 else addOff fromSq (-1)

/-- The castling branch of `board_make` (move the rook). -/
def mkCastle (b : Board) (side fromSq toSq : Nat) : Board :=
  let rookFrom := castleRookFrom fromSq toSq
  let rookTo := castleRookTo fromSq toSq
  let rook := b.squares rookFrom
  let rookPidx := zobristPieceIndex rook
  let rf64 := SQ_TO_SQ64 rookFrom
  let rt64 := SQ_TO_SQ64 rookTo
  let rookPstFrom := if side = WHITE then rf64 else PST_FLIP rf64
  let rookPstTo := if side = WHITE then rt64 else PST_FLIP rt64
  let b1 := { b with
    hash := b.hash ^^^ ZH (zobristPiece rookPidx rf64) ^^^ ZH (zobristPiece rookPidx rt64),
    lock := b.lock ^^^ lockPiece rookPidx rf64 ^^^ lockPiece rookPidx rt64,
    mg := upd b.mg side (b.mg side - mgTable (EVAL_INDEX PIECE_ROOK) rookPstFrom
            + mgTable (EVAL_INDEX PIECE_ROOK) rookPstTo),
    eg := upd b.eg side (b.eg side - egTable (EVAL_INDEX PIECE_ROOK) rookPstFrom
            + egTable (EVAL_INDEX PIECE_ROOK) rookPstTo) }
  let b2 := { b1 with squares := upd (upd b1.squares rookFrom PIECE_NONE) rookTo rook }
  plistMove b2 side rookFrom rookTo

/-- Castling-rights update of `board_make`. -/
def mkRights (b : Board) (fromSq toSq : Nat) : Board :=
  let oldCastling := b.castling
  let newCastling := b.castling &&& castlingMask fromSq &&& castlingMask toSq
  if oldCastling ≠ newCastling then
    { b with castling := newCastling,
             hash := b.hash ^^^ ZH (zobristCastle oldCastling)
               ^^^ ZH (zobristCastle newCastling),
             lock := b.lock ^^^ lockCastle oldCastling ^^^ lockCastle newCastling }
  else b

/-- En-passant-square update of `board_make`. -/
def mkEpSq (b : Board) (side flags fromSq : Nat) : Board :=
  let oldEp := b.epSquare
  let newEp :=
    if flags &&& FLAG_DOUBLE_PUSH ≠ 0 then
      if side = WHITE then addOff fromSq (-16) else addOff fromSq 16
    else SQ_NONE
  let b1 := { b with epSquare := newEp }
  let b2 :=
    if oldEp ≠ SQ_NONE then
      { b1 with hash := b1.hash ^^^ ZH (zobristEpFile (SQ_TO_COL oldEp)),
                lock := b1.lock ^^^ lockEpFile (SQ_TO_COL oldEp) }
    else b1
  if newEp ≠ SQ_NONE then
    { b2 with hash := b2.hash ^^^ ZH (zobristEpFile (SQ_TO_COL newEp)),
              lock := b2.lock ^^^ lockEpFile (SQ_TO_COL newEp) }
  else b2

/-- Side-to-move flip of `board_make`. -/
def mkFlip (b : Board) : Board :=
  { b with side := b.side ^^^ 1,
           hash := b.hash ^^^ ZH zobristSide,
           lock := b.lock ^^^ lockSide }

/-- `board_make` from board.c. -/
def boardMake (b : Board) (m : Move) : Board × Undo :=
  let piece := b.squares m.fromSq
  let captured := b.squares m.toSq
  let side := b.side
  let opp := side ^^^ 1
  let ty := PIECE_TYPE piece
  let flags := m.flags
  let u0 := mkUndo b m
  let b1 := mkClock b ty flags
  let b2 := mkLiftPiece b1 side piece m.fromSq
  let epCapSq := if side = WHITE then addOff m.toSq 16 else addOff m.toSq (-16)
  let bu :=
    if flags &&& FLAG_EN_PASSANT ≠ 0 then
      (mkEpCapture b2 opp epCapSq, { u0 with captured := b2.squares epCapSq })
    else if captured ≠ PIECE_NONE then (mkCapture b2 opp m.toSq captured, u0)
    else (b2, u0)
  let b4 := mkMovePiece bu.1 side piece m.fromSq m.toSq
  let b5 := mkDropPiece b4 side piece m.toSq
  let b6 := if flags &&& FLAG_PROMOTION ≠ 0 then mkPromo b5 side piece flags m.toSq else b5
  let b7 := if flags &&& FLAG_CASTLE ≠ 0 then mkCastle b6 side m.fromSq m.toSq else b6
  let b8 := if ty = PIECE_KING then { b7 with kingSq := upd b7.kingSq side m.toSq } else b7
  let b9 := mkRights b8 m.fromSq m.toSq
  let b10 := mkEpSq b9 side flags m.fromSq
  let b11 := mkFlip b10
  let b12 := if side = BLACK then { b11 with fullmove := (b11.fullmove + 1) % 65536 }
             else b11
  (b12, bu.2)

/-- The promotion-undo block of `board_unmake` (`piece` is the pawn put
back on the destination). -/
def unPromo (b : Board) (side piece flags toSq : Nat) : Board :=
  let to64 := SQ_TO_SQ64 toSq
  let eidx := EVAL_INDEX (PIECE_TYPE piece)
  let pstTo := if side = WHITE then to64 else PST_FLIP to64
  let promoType := promoTypeOf flags
  let promoEidx := EVAL_INDEX promoType
  let b1 := { b with
    mg := upd b.mg side (b.mg side - mgTable promoEidx pstTo + mgTable eidx pstTo),
    eg := upd b.eg side (b.eg side - egTable promoEidx pstTo + egTable eidx pstTo),
    phase := sub8 b.phase (phaseWeight promoEidx) }
  let b2 :=
    if promoType = PIECE_BISHOP then
      { b1 with bishopCount := upd b1.bishopCount side (dec8 (b1.bishopCount side)) }
    else b1
  { b2 with squares := upd b2.squares toSq piece }

/-- The move-back eval adjustment of `board_unmake`. -/
def unMoveEval (b : Board) (side piece fromSq toSq : Nat) : Board :=
  let from64 := SQ_TO_SQ64 fromSq
  let to64 := SQ_TO_SQ64 toSq
  let eidx := EVAL_INDEX (PIECE_TYPE piece)
  let pstFrom := if side = WHITE then from64 else PST_FLIP from64
  let pstTo := if side = WHITE then to64 else PST_FLIP to64
  { b with
    mg := upd b.mg side (b.mg side - mgTable eidx pstTo + mgTable eidx pstFrom),
    eg := upd b.eg side (b.eg side - egTable eidx pstTo + egTable eidx pstFrom) }

/-- The castling-undo block of `board_unmake` (move the rook back). -/
def unCastle (b : Board) (side fromSq toSq : Nat) : Board :=
  let rookFrom := castleRookFrom fromSq toSq
  let rookTo := castleRookTo fromSq toSq
  let rf64 := SQ_TO_SQ64 rookFrom
  let rt64 := SQ_TO_SQ64 rookTo
  let rookPstFrom := if side = WHITE then rf64 else PST_FLIP rf64
  let rookPstTo := if side = WHITE then rt64 else PST_FLIP rt64
  let b1 := { b with
    mg := upd b.mg side (b.mg side - mgTable (EVAL_INDEX PIECE_ROOK) rookPstTo
            + mgTable (EVAL_INDEX PIECE_ROOK) rookPstFrom),
    eg := upd b.eg side (b.eg side - egTable (EVAL_INDEX PIECE_ROOK) rookPstTo
            + egTable (EVAL_INDEX PIECE_ROOK) rookPstFrom) }
  let sq2 := upd (upd b1.squares rookFrom (b1.squares rookTo)) rookTo PIECE_NONE
  let b2 := { b1 with squares := sq2 }
  plistMove b2 side rookTo rookFrom

/-- Eval/phase/bishop-count restoration of a captured piece of side `o`
on square `sq` in `board_unmake`. -/
def unCapScores (b : Board) (o captured sq : Nat) : Board :=
  let sq64 := SQ_TO_SQ64 sq
  let eidx := EVAL_INDEX (PIECE_TYPE captured)
  let pst := if o = WHITE then sq64 else PST_FLIP sq64
  { b with
    mg := upd b.mg o (b.mg o + mgTable eidx pst),
    eg := upd b.eg o (b.eg o + egTable eidx pst),
    phase := add8 b.phase (phaseWeight eidx),
    bishopCount :=
      if PIECE_TYPE captured = PIECE_BISHOP then
        upd b.bishopCount o (inc8 (b.bishopCount o))
      else b.bishopCount }

/-- Replace the captured piece on `sq` and append it to the tail of the
piece list of side `o` (`board_unmake`). -/
def unCapReplace (b : Board) (o captured sq : Nat) : Board :=
  { b with
    squares := upd b.squares sq captured,
    pieceList := updPL b.pieceList o (b.pieceCount o) sq,
    pieceIndex := upd b.pieceIndex sq (b.pieceCount o),
    pieceCount := upd b.pieceCount o (b.pieceCount o + 1) }

/-- `board_unmake` from board.c. -/
def boardUnmake (b : Board) (m : Move) (u : Undo) : Board :=
  let b1 := { b with side := b.side ^^^ 1 }
  let side := b1.side
  let piece := u.movedPiece
  let ty := PIECE_TYPE piece
  let flags := u.flags
  let b2 := if flags &&& FLAG_PROMOTION ≠ 0 then unPromo b1 side piece flags m.toSq
            else b1
  let b3 := unMoveEval b2 side piece m.fromSq m.toSq
  let sq4 := upd (upd b3.squares m.fromSq piece) m.toSq PIECE_NONE
  let b4 := { b3 with squares := sq4 }
  let b5 := plistMove b4 side m.toSq m.fromSq
  let b6 := if ty = PIECE_KING then { b5 with kingSq := upd b5.kingSq side m.fromSq }
            else b5
  let b7 := if flags &&& FLAG_CASTLE ≠ 0 then unCastle b6 side m.fromSq m.toSq else b6
  let epCapSq := if side = WHITE then addOff m.toSq 16 else addOff m.toSq (-16)
  let b8 :=
    if flags &&& FLAG_EN_PASSANT ≠ 0 then
      unCapReplace (if u.captured ≠ PIECE_NONE then unCapScores b7 (side ^^^ 1) u.captured epCapSq else b7)
        (side ^^^ 1) u.captured epCapSq
    else if u.captured ≠ PIECE_NONE then
      unCapReplace (unCapScores b7 (side ^^^ 1) u.captured m.toSq) (side ^^^ 1) u.captured m.toSq
    else b7
  { b8 with castling := u.castling, epSquare := u.epSquare, halfmove := u.halfmove,
            fullmove := u.fullmove, pawnHash := u.pawnHash, hash := u.hash,
            lock := u.lock }

/-! ### board.c: initialisation and position setup -/

/-- `board_init` from board.c.  The C code memsets the whole struct to 0,
puts the sentinel on the off-board squares, and (deliberately) also fills
the 128 bytes following `squares[]` with the sentinel; the model's
`squares` function therefore returns the sentinel on every index outside
the valid range. -/
def boardInit : Board :=
  { squares := fun i => if SQ_VALID i ∧ i < 128 then PIECE_NONE else OFFBOARD,
    pieceList := fun _ _ => 0xFF,
    pieceIndex := fun _ => PLIST_INVALID,
    pieceCount := fun _ => 0,
    bishopCount := fun _ => 0,
    kingSq := fun _ => SQ_NONE,
    side := 0, castling := 0, epSquare := SQ_NONE,
    halfmove := 0, fullmove := 0,
    pawnHash := 0, hash := 0, lock := 0,
    mg := fun _ => 0, eg := fun _ => 0, phase := 0 }

/-- `board_add_piece` from board.c. -/
def boardAddPiece (b : Board) (sq piece : Nat) : Board :=
  let side := if IS_BLACK piece then BLACK else WHITE
  let ty := PIECE_TYPE piece
  let idx := EVAL_INDEX ty
  let sq64 := SQ_TO_SQ64 sq
  let pstSq := if side = WHITE then sq64 else PST_FLIP sq64
  let listIdx := b.pieceCount side
  { b with
    squares := upd b.squares sq piece,
    kingSq := if ty = PIECE_KING then upd b.kingSq side sq else b.kingSq,
    pieceList := updPL b.pieceList side listIdx sq,
    pieceIndex := upd b.pieceIndex sq listIdx,
    pieceCount := upd b.pieceCount side (listIdx + 1),
    bishopCount := if ty = PIECE_BISHOP then
        upd b.bishopCount side (b.bishopCount side + 1)
      else b.bishopCount,
    mg := upd b.mg side (b.mg side + mgTable idx pstSq),
    eg := upd b.eg side (b.eg side + egTable idx pstSq),
    phase := b.phase + phaseWeight idx }

/-- `ui_to_engine_piece` from board.c (`int8_t` UI code to engine piece). -/
def uiToEnginePiece (ui : Int) : Nat :=
  if ui = 0 then PIECE_NONE
  else if 0 < ui then MAKE_PIECE COLOR_WHITE ui.toNat
  else MAKE_PIECE COLOR_BLACK (-ui).toNat

/-- `board_compute_hash` from board.c (scratch recomputation). -/
def boardComputeHash (b : Board) : Board :=
  let step := fun (acc : Nat × Nat × Nat) (sq : Nat) =>
    let (h, ph, l) := acc
    if SQ_VALID sq then
      let piece := b.squares sq
      if piece ≠ PIECE_NONE then
        let pidx := zobristPieceIndex piece
        let sq64 := SQ_TO_SQ64 sq
        ( h ^^^ ZH (zobristPiece pidx sq64),
          if PIECE_TYPE piece = PIECE_PAWN then ph ^^^ ZH (zobristPiece pidx sq64) else ph,
          l ^^^ lockPiece pidx sq64 )
      else acc
    else acc
  let (h, ph, l) := (List.range 128).foldl step (0, 0, 0)
  let h := h ^^^ ZH (zobristCastle b.castling)
  let l := l ^^^ lockCastle b.castling
  let (h, l) :=
    if b.epSquare ≠ SQ_NONE then
      (h ^^^ ZH (zobristEpFile (SQ_TO_COL b.epSquare)),
       l ^^^ lockEpFile (SQ_TO_COL b.epSquare))
    else (h, l)
  let (h, l) :=
    if b.side = BLACK then (h ^^^ ZH zobristSide, l ^^^ lockSide) else (h, l)
  { b with pawnHash := ph, hash := h, lock := l }

/-- `board_set_from_ui` from board.c.  `ui r c` is the UI's
`int8_t board[8][8]` entry. -/
def boardSetFromUI (ui : Nat → Nat → Int) (turn : Int) (castling : Nat)
    (epRow epCol : Nat) (halfmoveClock : Nat) (fullmoveNumber : Nat) : Board :=
  let b := boardInit
  let b := (List.range 8).foldl (fun bb r =>
    (List.range 8).foldl (fun bb c =>
      let piece := uiToEnginePiece (ui r c)
      if piece ≠ PIECE_NONE then boardAddPiece bb (RC_TO_SQ r c) piece else bb) bb) b
  let b := { b with
    side := if turn = 1 then WHITE else BLACK,
    castling := castling,
    halfmove := halfmoveClock,
    fullmove := fullmoveNumber }
  let b :=
    if epRow ≠ 0xFF ∧ epCol ≠ 0xFF then { b with epSquare := RC_TO_SQ epRow epCol }
    else b
  boardComputeHash b

/-- The `start[8][8]` array of `board_startpos`. -/
def startGrid : Nat → Nat → Int := fun r c =>
  [ [ -4, -2, -3, -5, -6, -3, -2, -4 ],
    [ -1, -1, -1, -1, -1, -1, -1, -1 ],
    [  0,  0,  0,  0,  0,  0,  0,  0 ],
    [  0,  0,  0,  0,  0,  0,  0,  0 ],
    [  0,  0,  0,  0,  0,  0,  0,  0 ],
    [  0,  0,  0,  0,  0,  0,  0,  0 ],
    [  1,  1,  1,  1,  1,  1,  1,  1 ],
    [  4,  2,  3,  5,  6,  3,  2,  4 ] ].getD r [] |>.getD c 0

/-- `board_startpos` from board.c. -/
def boardStartpos : Board :=
  boardSetFromUI startGrid 1 CASTLE_ALL 0xFF 0xFF 0 1

/-! ### tt.c: packed moves; search.c: mate-score ply adjustment -/

/-- `tt_pack_move` from tt.c. -/
def ttPackMove (m : Move) : Nat :=
  let from64 := SQ_TO_SQ64 m.fromSq
  let to64 := SQ_TO_SQ64 m.toSq
  let packed := from64 ||| (to64 <<< 6)
  if m.flags &&& FLAG_PROMOTION ≠ 0 then
    packed ||| (1 <<< 12) ||| (((m.flags &&& FLAG_PROMO_MASK) >>> 4) <<< 13)
  else packed

/-- `tt_unpack_move` from tt.c. -/
def ttUnpackMove (packed : Nat) : Move :=
  let from64 := packed &&& 0x3F
  let to64 := (packed >>> 6) &&& 0x3F
  let baseFlags :=
    if packed &&& (1 <<< 12) ≠ 0 then
      FLAG_PROMOTION ||| (((packed >>> 13) &&& 3) <<< 4)
    else 0
  { fromSq := SQ64_TO_SQ from64, toSq := SQ64_TO_SQ to64, flags := baseFlags }

/-- Mate-score adjustment applied before `tt_store` in `negamax`
(search.c: `store_score += ply` for mating scores, `-= ply` for mated). -/
def ttAdjustForStore (score : Int) (ply : Nat) : Int :=
  if score > SCORE_MATE - MAX_PLY then score + ply
  else if score < -SCORE_MATE + MAX_PLY then score - ply
  else score

/-- Mate-score adjustment applied after `tt_probe` in `negamax`
(search.c: `tt_score -= ply` for mating scores, `+= ply` for mated). -/
def ttAdjustAfterProbe (score : Int) (ply : Nat) : Int :=
  if score > SCORE_MATE - MAX_PLY then score - ply
  else if score < -SCORE_MATE + MAX_PLY then score + ply
  else score

/-! ### engine.c: facade -/

def ENGINE_STATUS_NORMAL : Nat := 0
def ENGINE_STATUS_CHECK : Nat := 1
def ENGINE_STATUS_CHECKMATE : Nat := 2
def ENGINE_STATUS_STALEMATE : Nat := 3
def ENGINE_STATUS_DRAW_50 : Nat := 4
def ENGINE_STATUS_DRAW_REP : Nat := 5
def ENGINE_STATUS_DRAW_MAT : Nat := 6

/-- `engine_move_t` from engine.h. -/
structure EMove where
  fromRow : Nat
  fromCol : Nat
  toRow : Nat
  toCol : Nat
  flags : Nat
  deriving DecidableEq, Repr

/-- `internal_to_engine_move` from engine.c. -/
def internalToEngineMove (m : Move) : EMove :=
  { fromRow := SQ_TO_ROW m.fromSq, fromCol := SQ_TO_COL m.fromSq,
    toRow := SQ_TO_ROW m.toSq, toCol := SQ_TO_COL m.toSq, flags := m.flags }

/-- `engine_to_internal_move` from engine.c. -/
def engineToInternalMove (em : EMove) : Move :=
  { fromSq := RC_TO_SQ em.fromRow em.fromCol,
    toSq := RC_TO_SQ em.toRow em.toCol, flags := em.flags }

/-- `is_insufficient_material` from engine.c. -/
def isInsufficientMaterial (b : Board) : Bool :=
  let wc := b.pieceCount WHITE
  let bc := b.pieceCount BLACK
  if wc = 1 ∧ bc = 1 then true
  else if wc = 1 ∧ bc = 2 then
    (List.range bc).any (fun i =>
      let ty := PIECE_TYPE (b.squares (b.pieceList BLACK i))
      ty = PIECE_KNIGHT ∨ ty = PIECE_BISHOP)
  else if wc = 2 ∧ bc = 1 then
    (List.range wc).any (fun i =>
      let ty := PIECE_TYPE (b.squares (b.pieceList WHITE i))
      ty = PIECE_KNIGHT ∨ ty = PIECE_BISHOP)
  else false

/-- The legal-move scan of `compute_status`: make each generated move on
the (mutated, then restored) board, stopping at the first legal one. -/
def hasLegalScan : Board → List Move → Bool
  | _, [] => false
  | bb, mv :: rest =>
    let bu := boardMake bb mv
    if boardIsLegal bu.1 then true
    else hasLegalScan (boardUnmake bu.1 mv bu.2) rest

/-- `compute_status` from engine.c. -/
def computeStatus (b : Board) : Nat :=
  if 100 ≤ b.halfmove then ENGINE_STATUS_DRAW_50
  else if isInsufficientMaterial b then ENGINE_STATUS_DRAW_MAT
  else
    let inCheck := isSquareAttacked b (b.kingSq b.side) (b.side ^^^ 1)
    let hasLegal := hasLegalScan b (generateMoves b GEN_ALL)
    if ¬ hasLegal then
      if inCheck then ENGINE_STATUS_CHECKMATE else ENGINE_STATUS_STALEMATE
    else if inCheck then ENGINE_STATUS_CHECK
    else ENGINE_STATUS_NORMAL

/-- The legality filter of `engine_get_all_moves` / `engine_get_moves_from`:
make each pseudo-legal move on the shared board, keep it when legal, and
unmake it again (the board is threaded exactly as the C loop mutates it). -/
def legalFilterScan : Board → List Move → List EMove
  | _, [] => []
  | bb, mv :: rest =>
    let bu := boardMake bb mv
    let keep := boardIsLegal bu.1
    let bb2 := boardUnmake bu.1 mv bu.2
    if keep then internalToEngineMove mv :: legalFilterScan bb2 rest
    else legalFilterScan bb2 rest

/-- `engine_get_all_moves` from engine.c, for a caller whose `max`
capacity is not exceeded. -/
def engineGetAllMoves (b : Board) : List EMove :=
  legalFilterScan b (generateMoves b GEN_ALL)

/-- `engine_get_moves_from` from engine.c, likewise. -/
def engineGetMovesFrom (b : Board) (row col : Nat) : List EMove :=
  legalFilterScan b (generateMovesFrom b (RC_TO_SQ row col))

/-! ### search.c: position history (as used by the facade) -/

def MAX_GAME_PLY : Nat := 256

/-- The search's position-history globals (`pos_history`,
`pos_history_count`, `pos_history_irreversible`). -/
structure SearchHist where
  entries : Nat → Nat
  count : Nat
  irreversible : Nat

/-- `search_history_push` from search.c. -/
def histPush (h : SearchHist) (hash : Nat) : SearchHist :=
  if h.count < MAX_GAME_PLY then
    { h with entries := upd h.entries h.count hash, count := h.count + 1 }
  else h

/-- `search_history_set_irreversible` from search.c. -/
def histSetIrreversible (h : SearchHist) : SearchHist :=
  { h with irreversible := h.count }

/-- `engine_make_move` from engine.c: scan the candidates generated from
the origin square; apply the first one that matches the destination and
promotion kind and passes the legality check. -/
def engineMakeMoveScan (target : Move) :
    Board → SearchHist → List Move → (Nat × Board × SearchHist)
  | bb, h, [] => (ENGINE_STATUS_NORMAL, bb, h)
  | bb, h, mv :: rest =>
    if mv.toSq ≠ target.toSq then engineMakeMoveScan target bb h rest
    else if mv.flags &&& FLAG_PROMOTION ≠ 0 ∧
        mv.flags &&& FLAG_PROMO_MASK ≠ target.flags &&& FLAG_PROMO_MASK then
      engineMakeMoveScan target bb h rest
    else
      let bu := boardMake bb mv
      if ¬ boardIsLegal bu.1 then
        engineMakeMoveScan target (boardUnmake bu.1 mv bu.2) h rest
      else
        let h :=
          if PIECE_TYPE bu.2.movedPiece = PIECE_PAWN ∨
              bu.2.flags &&& FLAG_CAPTURE ≠ 0 then
            histSetIrreversible h
          else h
        let h := histPush h bu.1.hash
        (computeStatus bu.1, bu.1, h)

def engineMakeMove (b : Board) (h : SearchHist) (em : EMove) :
    Nat × Board × SearchHist :=
  let target := engineToInternalMove em
  engineMakeMoveScan target b h (generateMovesFrom b target.fromSq)

/-- On-board 0x88 square: representable as `uint8_t` and `SQ_VALID`. -/
def ValidSq (sq : Nat) : Prop := sq < 128 ∧ SQ_VALID sq = true

instance (sq : Nat) : Decidable (ValidSq sq) := by unfold ValidSq; infer_instance

lemma sq64_roundtrip : ∀ sq < 128, SQ_VALID sq = true →
    SQ64_TO_SQ (SQ_TO_SQ64 sq) = sq ∧ SQ_TO_SQ64 sq < 64 := by decide

set_option maxHeartbeats 1000000 in
lemma unpack_packed_promo : ∀ f < 64, ∀ t < 64, ∀ k < 4,
    ttUnpackMove ((f ||| (t <<< 6)) ||| (1 <<< 12) ||| (k <<< 13)) =
      ⟨SQ64_TO_SQ f, SQ64_TO_SQ t, 8 ||| (k <<< 4)⟩ := by decide

set_option maxHeartbeats 1000000 in
lemma unpack_packed_quiet : ∀ f < 64, ∀ t < 64,
    ttUnpackMove (f ||| (t <<< 6)) = ⟨SQ64_TO_SQ f, SQ64_TO_SQ t, 0⟩ := by decide

lemma promo_kind_lt (fl : Nat) : (fl &&& 0x30) >>> 4 < 4 := by
  have h : fl &&& 0x30 ≤ 0x30 := Nat.and_le_right
  rw [Nat.shiftRight_eq_div_pow]
  omega

lemma promo_kind_shift (fl : Nat) : (((fl &&& 0x30) >>> 4) <<< 4) = fl &&& 0x30 := by
  have h : fl &&& 0x30 ≤ 0x30 := Nat.and_le_right
  have h15 : (fl &&& 0x30) &&& 15 = 0 := by
    rw [Nat.land_assoc]
    show fl &&& 0 = 0
    simp
  revert h h15
  have : ∀ x ≤ 0x30, x &&& 15 = 0 → (x >>> 4) <<< 4 = x := by decide
  exact fun h h15 => this _ h h15

lemma unpack_flag_bits : ∀ k < 4,
    (8 ||| (k <<< 4)) &&& 8 = 8 ∧
    (8 ||| (k <<< 4)) &&& 0x30 = k <<< 4 ∧
    (8 ||| (k <<< 4)) &&& 0x47 = 0 := by decide

lemma and8_of_ne (x : Nat) (h : x &&& 8 ≠ 0) : x &&& 8 = 8 := by
  have h1 : x &&& 8 ≤ 8 := Nat.and_le_right
  have h2 : (x &&& 8) &&& 7 = 0 := by
    rw [Nat.land_assoc]
    show x &&& 0 = 0
    simp
  revert h h1 h2
  have : ∀ y ≤ 8, y &&& 7 = 0 → y ≠ 0 → y = 8 := by decide
  exact fun h h1 h2 => this _ h1 h2 h

/-- Claim C9:  TT move packing is a partial inverse: for every move whose
`from` and `to` are valid on-board 0x88 squares, unpacking the packed move
restores `from` and `to`, preserves the `FLAG_PROMOTION` bit (and, for
promotion moves, the two promotion-kind bits), and clears the capture,
castle, en-passant and double-push bits. -/
theorem tt_pack_unpack_partial_inverse (m : Move)
    (hf : ValidSq m.fromSq) (ht : ValidSq m.toSq) :
    (ttUnpackMove (ttPackMove m)).fromSq = m.fromSq ∧
    (ttUnpackMove (ttPackMove m)).toSq = m.toSq ∧
    (ttUnpackMove (ttPackMove m)).flags &&& FLAG_PROMOTION
      = m.flags &&& FLAG_PROMOTION ∧
    (m.flags &&& FLAG_PROMOTION ≠ 0 →
      (ttUnpackMove (ttPackMove m)).flags &&& FLAG_PROMO_MASK
        = m.flags &&& FLAG_PROMO_MASK) ∧
    (ttUnpackMove (ttPackMove m)).flags &&&
      (FLAG_CAPTURE ||| FLAG_CASTLE ||| FLAG_EN_PASSANT ||| FLAG_DOUBLE_PUSH) = 0 := by
  obtain ⟨hf1, hf2⟩ := hf
  obtain ⟨ht1, ht2⟩ := ht
  obtain ⟨hfr, hflt⟩ := sq64_roundtrip m.fromSq hf1 hf2
  obtain ⟨htr, htlt⟩ := sq64_roundtrip m.toSq ht1 ht2
  by_cases hp : m.flags &&& FLAG_PROMOTION = 0
  · have hpack : ttPackMove m = SQ_TO_SQ64 m.fromSq ||| (SQ_TO_SQ64 m.toSq <<< 6) := by
      unfold ttPackMove
      simp [hp]
    rw [hpack, unpack_packed_quiet _ hflt _ htlt]
    refine ⟨hfr, htr, by simpa using hp.symm, fun h => absurd hp h, by simp⟩
  · have hpack : ttPackMove m =
        (SQ_TO_SQ64 m.fromSq ||| (SQ_TO_SQ64 m.toSq <<< 6)) ||| (1 <<< 12) |||
          (((m.flags &&& 0x30) >>> 4) <<< 13) := by
      unfold ttPackMove
      simp [hp, FLAG_PROMO_MASK]
    obtain ⟨k1, k2, k3⟩ := unpack_flag_bits _ (promo_kind_lt m.flags)
    rw [hpack, unpack_packed_promo _ hflt _ htlt _ (promo_kind_lt m.flags)]
    refine ⟨hfr, htr, ?_, fun _ => ?_, k3⟩
    · show (8 ||| (((m.flags &&& 0x30) >>> 4) <<< 4)) &&& 8 = _
      rw [k1]
      exact (and8_of_ne _ hp).symm
    · show (8 ||| (((m.flags &&& 0x30) >>> 4) <<< 4)) &&& 0x30 = _
      rw [k2, promo_kind_shift]
      rfl

/-- Witness for `tt_pack_unpack_partial_inverse` at the concrete promotion
move from 0x11 to 0x00 with flags capture+promotion+rook (0x19). -/
theorem tt_pack_unpack_partial_inverse_witness :
    ValidSq 0x11 ∧ ValidSq 0x00 ∧
    ((ttUnpackMove (ttPackMove ⟨0x11, 0x00, 0x19⟩)).fromSq = 0x11 ∧
     (ttUnpackMove (ttPackMove ⟨0x11, 0x00, 0x19⟩)).toSq = 0x00 ∧
     (ttUnpackMove (ttPackMove ⟨0x11, 0x00, 0x19⟩)).flags &&& FLAG_PROMOTION
       = 0x19 &&& FLAG_PROMOTION ∧
     ((0x19 : Nat) &&& FLAG_PROMOTION ≠ 0 →
       (ttUnpackMove (ttPackMove ⟨0x11, 0x00, 0x19⟩)).flags &&& FLAG_PROMO_MASK
         = 0x19 &&& FLAG_PROMO_MASK) ∧
     (ttUnpackMove (ttPackMove ⟨0x11, 0x00, 0x19⟩)).flags &&&
       (FLAG_CAPTURE ||| FLAG_CASTLE ||| FLAG_EN_PASSANT ||| FLAG_DOUBLE_PUSH) = 0) :=
  ⟨by decide, by decide,
   tt_pack_unpack_partial_inverse ⟨0x11, 0x00, 0x19⟩ (by decide) (by decide)⟩

/-- Claim C8:  TT mate-score ply adjustment: storing a mating (resp. mated)
score `s` found at ply `A` writes `s + A` (resp. `s - A`); probing at ply
`B` then yields `s + A - B` (resp. `s - A + B`), and probing at the
storing ply returns `s` unchanged.  For the canonical mate scores
`SCORE_MATE - (A + n)` the stored value `SCORE_MATE - n` is independent of
the ply `A` at which the score was found. -/
theorem tt_mate_ply_adjust (s : Int) (A B n : Nat) :
    (s > SCORE_MATE - MAX_PLY →
      ttAdjustAfterProbe (ttAdjustForStore s A) B = s + A - B) ∧
    (s < -SCORE_MATE + MAX_PLY →
      ttAdjustAfterProbe (ttAdjustForStore s A) B = s - A + B) ∧
    (s > SCORE_MATE - MAX_PLY →
      ttAdjustAfterProbe (ttAdjustForStore s A) A = s) ∧
    (s < -SCORE_MATE + MAX_PLY →
      ttAdjustAfterProbe (ttAdjustForStore s A) A = s) ∧
    (n + A < MAX_PLY →
      ttAdjustForStore (SCORE_MATE - (A + n)) A = SCORE_MATE - n) ∧
    (n + A < MAX_PLY →
      ttAdjustForStore (-SCORE_MATE + (A + n)) A = -SCORE_MATE + n) := by
  unfold ttAdjustForStore ttAdjustAfterProbe SCORE_MATE MAX_PLY
  refine ⟨fun h => ?_, fun h => ?_, fun h => ?_, fun h => ?_, fun h => ?_, fun h => ?_⟩ <;>
    split_ifs <;> omega

/-- Witness for `tt_mate_ply_adjust`: a mate-in-10 score stored at ply 3
and probed at ply 5. -/
theorem tt_mate_ply_adjust_witness :
    ((28990 : Int) > SCORE_MATE - MAX_PLY ∧
      ttAdjustAfterProbe (ttAdjustForStore 28990 3) 5 = 28990 + 3 - 5) ∧
    ((7 : Nat) + 3 < MAX_PLY ∧
      ttAdjustForStore (SCORE_MATE - (3 + 7)) 3 = SCORE_MATE - 7) :=
  ⟨⟨by decide, (tt_mate_ply_adjust 28990 3 5 7).1 (by decide)⟩,
   ⟨by decide, (tt_mate_ply_adjust 28990 3 5 7).2.2.2.2.1 (by decide)⟩⟩

/-- Claim C6 code bug:  `compute_status` can never report a draw by
repetition: its result is always one of normal, check, checkmate,
stalemate, draw_50 or draw_mat, so the status code returned by
`engine_make_move` (which is either `compute_status` of the new position
or normal) is never `ENGINE_STATUS_DRAW_REP`, although engine.h defines
that status and the spec promises it is propagated. -/
theorem compute_status_never_draw_rep (b : Board) :
    computeStatus b ≠ ENGINE_STATUS_DRAW_REP := by
  unfold computeStatus
  by_cases h1 : 100 ≤ b.halfmove
  · simp [h1]
    decide
  by_cases h2 : isInsufficientMaterial b
  · simp [h1, h2]
    decide
  by_cases h3 : hasLegalScan b (generateMoves b GEN_ALL)
  · by_cases h4 : isSquareAttacked b (b.kingSq b.side) (b.side ^^^ 1) <;>
      simp [h1, h2, h3, h4] <;> decide
  · by_cases h4 : isSquareAttacked b (b.kingSq b.side) (b.side ^^^ 1) <;>
      simp [h1, h2, h3, h4] <;> decide

/-! ### C4: indices read by the sliding-ray walks

`gen_sliding_moves` and the slider scans of `is_square_attacked` test
`SQ_VALID(target)` before every `squares[target]` load; the ray walks of
`compute_legal_info` (search.c) and of the bishop-mobility term of
`evaluate` (eval.c) instead load `squares[target]` first and rely on the
sentinel to stop (`while (b->squares[target] == PIECE_NONE) target += dir`).
The collectors below list the indices at which each loop shape loads
`squares[]`. -/

/-- Indices read by one guarded ray of `gen_sliding_moves` /
`is_square_attacked` (`while (SQ_VALID(target)) { occ = squares[target]; ... }`). -/
def guardedRayReads (b : Board) (dir : Int) : Nat → Nat → List Nat
  | 0, _ => []
  | fuel + 1, target =>
    if ¬ SQ_VALID target then []
    else target ::
      (if b.squares target = PIECE_NONE then
        guardedRayReads b dir fuel (addOff target dir)
      else [])

/-- Indices read by one sentinel-terminated ray of `compute_legal_info` or
of the bishop-mobility walk in `evaluate`
(`while (squares[target] == PIECE_NONE) target += dir`, no validity test
before the load). -/
def sentinelRayReads (b : Board) (dir : Int) : Nat → Nat → List Nat
  | 0, _ => []
  | fuel + 1, target =>
    target ::
      (if b.squares target = PIECE_NONE then
        sentinelRayReads b dir fuel (addOff target dir)
      else [])

lemma addOff_lt_256 (sq : Nat) (d : Int) : addOff sq d < 256 := by
  unfold addOff
  have h1 : 0 ≤ ((sq : Int) + d).emod 256 := Int.emod_nonneg _ (by omega)
  have h2 : ((sq : Int) + d).emod 256 < 256 := Int.emod_lt_of_pos _ (by omega)
  omega

set_option maxRecDepth 2000 in
lemma sq_valid_lt_128 : ∀ r < 256, SQ_VALID r = true → r < 128 := by decide

lemma guardedRayReads_lt_128 (b : Board) (dir : Int) :
    ∀ fuel target, target < 256 → ∀ r ∈ guardedRayReads b dir fuel target, r < 128 := by
  intro fuel
  induction fuel with
  | zero => intro target _ r hr; simp [guardedRayReads] at hr
  | succ n ih =>
    intro target ht r hr
    unfold guardedRayReads at hr
    by_cases hv : SQ_VALID target
    · simp only [hv, not_true_eq_false, if_false] at hr
      rcases List.mem_cons.mp hr with h | h
      · subst h; exact sq_valid_lt_128 r ht hv
      · by_cases he : b.squares target = PIECE_NONE
        · simp only [he, if_pos] at h
          exact ih (addOff target dir) (addOff_lt_256 target dir) r h
        · simp [he] at h
    · simp [hv] at hr

lemma sentinelRayReads_lt_256 (b : Board) (dir : Int) :
    ∀ fuel target, target < 256 → ∀ r ∈ sentinelRayReads b dir fuel target, r < 256 := by
  intro fuel
  induction fuel with
  | zero => intro target _ r hr; simp [sentinelRayReads] at hr
  | succ n ih =>
    intro target ht r hr
    unfold sentinelRayReads at hr
    rcases List.mem_cons.mp hr with h | h
    · subst h; exact ht
    · by_cases he : b.squares target = PIECE_NONE
      · simp only [he, if_pos] at h
        exact ih (addOff target dir) (addOff_lt_256 target dir) r h
      · simp [he] at h

/-- A board with only the two kings, the white king on h1 (0x88 square
0x77); built through the facade's position encoding. -/
def kingsH1Grid : Nat → Nat → Int := fun r c =>
  [ [ -6,  0,  0,  0,  0,  0,  0,  0 ],
    [  0,  0,  0,  0,  0,  0,  0,  0 ],
    [  0,  0,  0,  0,  0,  0,  0,  0 ],
    [  0,  0,  0,  0,  0,  0,  0,  0 ],
    [  0,  0,  0,  0,  0,  0,  0,  0 ],
    [  0,  0,  0,  0,  0,  0,  0,  0 ],
    [  0,  0,  0,  0,  0,  0,  0,  0 ],
    [  0,  0,  0,  0,  0,  0,  0,  6 ] ].getD r [] |>.getD c 0

def kingsH1Board : Board := boardSetFromUI kingsH1Grid 1 0 0xFF 0xFF 0 1

set_option maxRecDepth 4000 in
/-- Claim C4 counterexample:  With the white king on h1, the sentinel ray
walk of `compute_legal_info` along direction +17 starts by loading
`squares[0x77 + 17] = squares[136]`, an index outside the 128-element
0x88 array (the C code deliberately pre-fills the 128 bytes after the
array with the sentinel): the ray loop runs off the board. -/
theorem legal_info_ray_reads_off_board :
    kingsH1Board.kingSq WHITE = 0x77 ∧
    (17 : Int) ∈ kingOffsets ∧
    136 ∈ sentinelRayReads kingsH1Board 17 32 (addOff (kingsH1Board.kingSq WHITE) 17) ∧
    ¬ (136 < 128) := by
  refine ⟨by decide, by decide, ?_, by decide⟩
  decide

/-- Claim C4 amended:  Every `squares[]` load in the `SQ_VALID`-guarded ray
loops of `gen_sliding_moves` and `is_square_attacked` stays inside the
128-element 0x88 array; the sentinel-terminated ray walks of
`compute_legal_info` and of the bishop-mobility term of `evaluate` may
leave the 128-element array but stay inside the 256-byte wrapped index
space whose upper half the C code pre-fills with the sentinel. -/
theorem ray_read_bounds (b : Board) (dir : Int) (fuel target : Nat)
    (ht : target < 256) :
    (∀ r ∈ guardedRayReads b dir fuel target, r < 128) ∧
    (∀ r ∈ sentinelRayReads b dir fuel target, r < 256) :=
  ⟨guardedRayReads_lt_128 b dir fuel target ht,
   sentinelRayReads_lt_256 b dir fuel target ht⟩

set_option maxRecDepth 4000 in
/-- Witness for `ray_read_bounds` on the two-kings board along +17 from h1. -/
theorem ray_read_bounds_witness :
    (0x77 : Nat) < 256 ∧
    ((∀ r ∈ guardedRayReads kingsH1Board 17 32 0x77, r < 128) ∧
     (∀ r ∈ sentinelRayReads kingsH1Board 17 32 0x77, r < 256)) :=
  ⟨by decide, ray_read_bounds kingsH1Board 17 32 0x77 (by decide)⟩


/-! ### Well-formed boards, generated-move facts, and the round-trip
machinery for `board_make` / `board_unmake` -/

@[simp] lemma upd_self {α : Type} (f : Nat → α) (i : Nat) (v : α) : upd f i v i = v := by
  simp [upd]

lemma upd_ne {α : Type} (f : Nat → α) (i j : Nat) (v : α) (h : j ≠ i) :
    upd f i v j = f j := by simp [upd, h]

lemma upd_idem {α : Type} (f : Nat → α) (i : Nat) (v w : α) :
    upd (upd f i v) i w = upd f i w := by
  funext j; by_cases h : j = i <;> simp [upd, h]

lemma upd_restore {α : Type} (f : Nat → α) (i : Nat) (v : α) :
    upd (upd f i v) i (f i) = f := by
  funext j; by_cases h : j = i <;> simp [upd, h]

lemma upd_self_eq {α : Type} (f : Nat → α) (i : Nat) : upd f i (f i) = f := by
  funext j; by_cases h : j = i <;> simp [upd, h]

lemma upd_comm {α : Type} (f : Nat → α) (i j : Nat) (v w : α) (h : i ≠ j) :
    upd (upd f i v) j w = upd (upd f j w) i v := by
  funext k
  by_cases hk : k = j <;> by_cases hk2 : k = i <;>
    simp [upd, hk, hk2] <;> simp_all

@[simp] lemma updPL_self (f : Nat → Nat → Nat) (s i : Nat) (v : Nat) :
    updPL f s i v s i = v := by simp [updPL]

lemma updPL_ne (f : Nat → Nat → Nat) (s i : Nat) (v : Nat) (s' i' : Nat)
    (h : ¬ (s' = s ∧ i' = i)) : updPL f s i v s' i' = f s' i' := by
  simp [updPL, h]

lemma updPL_idem (f : Nat → Nat → Nat) (s i : Nat) (v w : Nat) :
    updPL (updPL f s i v) s i w = updPL f s i w := by
  funext s' i'
  by_cases h : s' = s ∧ i' = i <;> simp [updPL, h]

lemma updPL_restore (f : Nat → Nat → Nat) (s i : Nat) (v : Nat) :
    updPL (updPL f s i v) s i (f s i) = f := by
  funext s' i'
  by_cases h : s' = s ∧ i' = i
  · obtain ⟨h1, h2⟩ := h; subst h1; subst h2; simp [updPL]
  · simp [updPL, h]

/-- Piece values that can occur on a well-formed board's valid squares. -/
def ValidPiece (p : Nat) : Prop := (1 ≤ p ∧ p ≤ 6) ∨ (0x81 ≤ p ∧ p ≤ 0x86)

instance (p : Nat) : Decidable (ValidPiece p) := by unfold ValidPiece; infer_instance

/-- The side owning a piece byte (as computed throughout the C sources). -/
def colorSide (p : Nat) : Nat := if IS_BLACK p then BLACK else WHITE

/-- Consistency of the piece lists and the index array with the squares
array (board.c invariants). -/
structure ListsCoherent (b : Board) : Prop where
  countLe : ∀ s < 2, b.pieceCount s ≤ 16
  listOcc : ∀ s < 2, ∀ k < b.pieceCount s,
    ValidSq (b.pieceList s k) ∧ b.squares (b.pieceList s k) ≠ PIECE_NONE ∧
    colorSide (b.squares (b.pieceList s k)) = s ∧ b.pieceIndex (b.pieceList s k) = k
  occList : ∀ i, ValidSq i → b.squares i ≠ PIECE_NONE →
    b.pieceIndex i < b.pieceCount (colorSide (b.squares i)) ∧
    b.pieceList (colorSide (b.squares i)) (b.pieceIndex i) = i
  emptyIdx : ∀ i, ValidSq i → b.squares i = PIECE_NONE → b.pieceIndex i = PLIST_INVALID

/-- Well-formed board: what `board_set_from_ui` establishes and
`board_make`/`board_unmake` maintain, as far as the round-trip and status
claims need it. -/
structure WFBoard (b : Board) : Prop where
  side01 : b.side < 2
  sqOff : ∀ i, ¬ ValidSq i → b.squares i = OFFBOARD
  sqPiece : ∀ i, ValidSq i → b.squares i = PIECE_NONE ∨ ValidPiece (b.squares i)
  coh : ListsCoherent b
  kingDir : ∀ i, ValidSq i → b.squares i ≠ PIECE_NONE →
    PIECE_TYPE (b.squares i) = PIECE_KING → i = b.kingSq (colorSide (b.squares i))
  epOk : b.epSquare = SQ_NONE ∨
    (ValidSq b.epSquare ∧ b.squares b.epSquare = PIECE_NONE ∧
     ValidSq (addOff b.epSquare (if b.side = WHITE then 16 else -16)) ∧
     b.squares (addOff b.epSquare (if b.side = WHITE then 16 else -16)) =
       MAKE_PIECE (if b.side = WHITE then COLOR_BLACK else COLOR_WHITE) PIECE_PAWN)
  bishopLt : ∀ s < 2, b.bishopCount s < 256
  phaseLt : b.phase < 256

/-- Facts about a pseudo-legal move that `board_make`/`board_unmake`
rely on; every move produced by `generate_moves` on a well-formed board
satisfies them (`generateMoves_MoveOK`). -/
structure MoveOK (b : Board) (m : Move) : Prop where
  validFrom : ValidSq m.fromSq
  validTo : ValidSq m.toSq
  neFromTo : m.fromSq ≠ m.toSq
  occFrom : b.squares m.fromSq ≠ PIECE_NONE
  sideFrom : colorSide (b.squares m.fromSq) = b.side
  flagShape : m.flags = 0 ∨ m.flags = FLAG_CAPTURE ∨ m.flags = FLAG_DOUBLE_PUSH ∨
    m.flags = FLAG_CASTLE ∨ m.flags = FLAG_CAPTURE ||| FLAG_EN_PASSANT ∨
    (∃ k < 4, m.flags = FLAG_PROMOTION ||| (k <<< 4) ∨
      m.flags = FLAG_CAPTURE ||| FLAG_PROMOTION ||| (k <<< 4))
  capTo : m.flags &&& FLAG_CAPTURE ≠ 0 → m.flags &&& FLAG_EN_PASSANT = 0 →
    b.squares m.toSq ≠ PIECE_NONE ∧ colorSide (b.squares m.toSq) = b.side ^^^ 1
  quietTo : m.flags &&& FLAG_CAPTURE = 0 → b.squares m.toSq = PIECE_NONE
  epOkM : m.flags &&& FLAG_EN_PASSANT ≠ 0 →
    m.toSq = b.epSquare ∧ b.squares m.toSq = PIECE_NONE ∧
    (let capSq := if b.side = WHITE then addOff m.toSq 16 else addOff m.toSq (-16)
     ValidSq capSq ∧ capSq ≠ m.fromSq ∧ capSq ≠ m.toSq ∧
       b.squares capSq ≠ PIECE_NONE ∧ colorSide (b.squares capSq) = b.side ^^^ 1)
  castleOkM : m.flags &&& FLAG_CASTLE ≠ 0 →
    PIECE_TYPE (b.squares m.fromSq) = PIECE_KING ∧
    ((b.side = WHITE ∧ m.fromSq = SQ_E1) ∨ (b.side = BLACK ∧ m.fromSq = SQ_E8)) ∧
    (m.toSq = m.fromSq + 2 ∨ m.toSq = m.fromSq - 2) ∧
    b.squares (castleRookFrom m.fromSq m.toSq) ≠ PIECE_NONE ∧
    colorSide (b.squares (castleRookFrom m.fromSq m.toSq)) = b.side ∧
    PIECE_TYPE (b.squares (castleRookFrom m.fromSq m.toSq)) ≠ PIECE_KING ∧
    b.squares (castleRookTo m.fromSq m.toSq) = PIECE_NONE
  promoPawn : m.flags &&& FLAG_PROMOTION ≠ 0 →
    PIECE_TYPE (b.squares m.fromSq) = PIECE_PAWN
  kingFrom : PIECE_TYPE (b.squares m.fromSq) = PIECE_KING →
    m.fromSq = b.kingSq b.side

/-- The occupied prefix of a side's piece list. -/
def prefList (b : Board) (s : Nat) : List Nat :=
  (List.range (b.pieceCount s)).map (b.pieceList s)

/-- Equality of every `board_t` field except `piece_list`/`piece_index`. -/
structure NonListEq (b' b : Board) : Prop where
  squares : b'.squares = b.squares
  pieceCount : b'.pieceCount = b.pieceCount
  bishopCount : b'.bishopCount = b.bishopCount
  kingSq : b'.kingSq = b.kingSq
  side : b'.side = b.side
  castling : b'.castling = b.castling
  epSquare : b'.epSquare = b.epSquare
  halfmove : b'.halfmove = b.halfmove
  fullmove : b'.fullmove = b.fullmove
  pawnHash : b'.pawnHash = b.pawnHash
  hash : b'.hash = b.hash
  lock : b'.lock = b.lock
  mg : b'.mg = b.mg
  eg : b'.eg = b.eg
  phase : b'.phase = b.phase

/-- Restoration of the position up to the order of the piece lists: all
fields other than `piece_list`/`piece_index` are bitwise equal, each
side's occupied list prefix is a permutation of the original, and the
index array remains coherent. -/
def PosEq (b' b : Board) : Prop :=
  NonListEq b' b ∧ (∀ s < 2, (prefList b' s).Perm (prefList b s)) ∧ ListsCoherent b'

@[simp] lemma ite_board_squares (c : Prop) [Decidable c] (x y : Board) :
    (if c then x else y).squares = if c then x.squares else y.squares := apply_ite _ c x y

@[simp] lemma ite_board_pieceList (c : Prop) [Decidable c] (x y : Board) :
    (if c then x else y).pieceList = if c then x.pieceList else y.pieceList := apply_ite _ c x y

@[simp] lemma ite_board_pieceIndex (c : Prop) [Decidable c] (x y : Board) :
    (if c then x else y).pieceIndex = if c then x.pieceIndex else y.pieceIndex := apply_ite _ c x y

@[simp] lemma ite_board_pieceCount (c : Prop) [Decidable c] (x y : Board) :
    (if c then x else y).pieceCount = if c then x.pieceCount else y.pieceCount := apply_ite _ c x y

@[simp] lemma ite_board_bishopCount (c : Prop) [Decidable c] (x y : Board) :
    (if c then x else y).bishopCount = if c then x.bishopCount else y.bishopCount := apply_ite _ c x y

@[simp] lemma ite_board_kingSq (c : Prop) [Decidable c] (x y : Board) :
    (if c then x else y).kingSq = if c then x.kingSq else y.kingSq := apply_ite _ c x y

@[simp] lemma ite_board_side (c : Prop) [Decidable c] (x y : Board) :
    (if c then x else y).side = if c then x.side else y.side := apply_ite _ c x y

@[simp] lemma ite_board_castling (c : Prop) [Decidable c] (x y : Board) :
    (if c then x else y).castling = if c then x.castling else y.castling := apply_ite _ c x y

@[simp] lemma ite_board_epSquare (c : Prop) [Decidable c] (x y : Board) :
    (if c then x else y).epSquare = if c then x.epSquare else y.epSquare := apply_ite _ c x y

@[simp] lemma ite_board_halfmove (c : Prop) [Decidable c] (x y : Board) :
    (if c then x else y).halfmove = if c then x.halfmove else y.halfmove := apply_ite _ c x y

@[simp] lemma ite_board_fullmove (c : Prop) [Decidable c] (x y : Board) :
    (if c then x else y).fullmove = if c then x.fullmove else y.fullmove := apply_ite _ c x y

@[simp] lemma ite_board_pawnHash (c : Prop) [Decidable c] (x y : Board) :
    (if c then x else y).pawnHash = if c then x.pawnHash else y.pawnHash := apply_ite _ c x y

@[simp] lemma ite_board_hash (c : Prop) [Decidable c] (x y : Board) :
    (if c then x else y).hash = if c then x.hash else y.hash := apply_ite _ c x y

@[simp] lemma ite_board_lock (c : Prop) [Decidable c] (x y : Board) :
    (if c then x else y).lock = if c then x.lock else y.lock := apply_ite _ c x y

@[simp] lemma ite_board_mg (c : Prop) [Decidable c] (x y : Board) :
    (if c then x else y).mg = if c then x.mg else y.mg := apply_ite _ c x y

@[simp] lemma ite_board_eg (c : Prop) [Decidable c] (x y : Board) :
    (if c then x else y).eg = if c then x.eg else y.eg := apply_ite _ c x y

@[simp] lemma ite_board_phase (c : Prop) [Decidable c] (x y : Board) :
    (if c then x else y).phase = if c then x.phase else y.phase := apply_ite _ c x y

@[simp] lemma mkClock_squares (b : Board) (ty flags : Nat) :
    (mkClock b ty flags).squares = b.squares := rfl

@[simp] lemma mkClock_pieceList (b : Board) (ty flags : Nat) :
    (mkClock b ty flags).pieceList = b.pieceList := rfl

@[simp] lemma mkClock_pieceIndex (b : Board) (ty flags : Nat) :
    (mkClock b ty flags).pieceIndex = b.pieceIndex := rfl

@[simp] lemma mkClock_pieceCount (b : Board) (ty flags : Nat) :
    (mkClock b ty flags).pieceCount = b.pieceCount := rfl

@[simp] lemma mkClock_bishopCount (b : Board) (ty flags : Nat) :
    (mkClock b ty flags).bishopCount = b.bishopCount := rfl

@[simp] lemma mkClock_kingSq (b : Board) (ty flags : Nat) :
    (mkClock b ty flags).kingSq = b.kingSq := rfl

@[simp] lemma mkClock_side (b : Board) (ty flags : Nat) :
    (mkClock b ty flags).side = b.side := rfl

@[simp] lemma mkClock_castling (b : Board) (ty flags : Nat) :
    (mkClock b ty flags).castling = b.castling := rfl

@[simp] lemma mkClock_epSquare (b : Board) (ty flags : Nat) :
    (mkClock b ty flags).epSquare = b.epSquare := rfl

@[simp] lemma mkClock_fullmove (b : Board) (ty flags : Nat) :
    (mkClock b ty flags).fullmove = b.fullmove := rfl

@[simp] lemma mkClock_pawnHash (b : Board) (ty flags : Nat) :
    (mkClock b ty flags).pawnHash = b.pawnHash := rfl

@[simp] lemma mkClock_hash (b : Board) (ty flags : Nat) :
    (mkClock b ty flags).hash = b.hash := rfl

@[simp] lemma mkClock_lock (b : Board) (ty flags : Nat) :
    (mkClock b ty flags).lock = b.lock := rfl

@[simp] lemma mkClock_mg (b : Board) (ty flags : Nat) :
    (mkClock b ty flags).mg = b.mg := rfl

@[simp] lemma mkClock_eg (b : Board) (ty flags : Nat) :
    (mkClock b ty flags).eg = b.eg := rfl

@[simp] lemma mkClock_phase (b : Board) (ty flags : Nat) :
    (mkClock b ty flags).phase = b.phase := rfl

@[simp] lemma mkLiftPiece_squares (b : Board) (s piece sq : Nat) :
    (mkLiftPiece b s piece sq).squares = b.squares := rfl

@[simp] lemma mkLiftPiece_pieceList (b : Board) (s piece sq : Nat) :
    (mkLiftPiece b s piece sq).pieceList = b.pieceList := rfl

@[simp] lemma mkLiftPiece_pieceIndex (b : Board) (s piece sq : Nat) :
    (mkLiftPiece b s piece sq).pieceIndex = b.pieceIndex := rfl

@[simp] lemma mkLiftPiece_pieceCount (b : Board) (s piece sq : Nat) :
    (mkLiftPiece b s piece sq).pieceCount = b.pieceCount := rfl

@[simp] lemma mkLiftPiece_bishopCount (b : Board) (s piece sq : Nat) :
    (mkLiftPiece b s piece sq).bishopCount = b.bishopCount := rfl

@[simp] lemma mkLiftPiece_kingSq (b : Board) (s piece sq : Nat) :
    (mkLiftPiece b s piece sq).kingSq = b.kingSq := rfl

@[simp] lemma mkLiftPiece_side (b : Board) (s piece sq : Nat) :
    (mkLiftPiece b s piece sq).side = b.side := rfl

@[simp] lemma mkLiftPiece_castling (b : Board) (s piece sq : Nat) :
    (mkLiftPiece b s piece sq).castling = b.castling := rfl

@[simp] lemma mkLiftPiece_epSquare (b : Board) (s piece sq : Nat) :
    (mkLiftPiece b s piece sq).epSquare = b.epSquare := rfl

@[simp] lemma mkLiftPiece_halfmove (b : Board) (s piece sq : Nat) :
    (mkLiftPiece b s piece sq).halfmove = b.halfmove := rfl

@[simp] lemma mkLiftPiece_fullmove (b : Board) (s piece sq : Nat) :
    (mkLiftPiece b s piece sq).fullmove = b.fullmove := rfl

@[simp] lemma mkLiftPiece_phase (b : Board) (s piece sq : Nat) :
    (mkLiftPiece b s piece sq).phase = b.phase := rfl

@[simp] lemma mkCaptureScores_squares (b : Board) (o capPiece sq : Nat) :
    (mkCaptureScores b o capPiece sq).squares = b.squares := rfl

@[simp] lemma mkCaptureScores_pieceList (b : Board) (o capPiece sq : Nat) :
    (mkCaptureScores b o capPiece sq).pieceList = b.pieceList := rfl

@[simp] lemma mkCaptureScores_pieceIndex (b : Board) (o capPiece sq : Nat) :
    (mkCaptureScores b o capPiece sq).pieceIndex = b.pieceIndex := rfl

@[simp] lemma mkCaptureScores_pieceCount (b : Board) (o capPiece sq : Nat) :
    (mkCaptureScores b o capPiece sq).pieceCount = b.pieceCount := rfl

@[simp] lemma mkCaptureScores_bishopCount (b : Board) (o capPiece sq : Nat) :
    (mkCaptureScores b o capPiece sq).bishopCount = b.bishopCount := rfl

@[simp] lemma mkCaptureScores_kingSq (b : Board) (o capPiece sq : Nat) :
    (mkCaptureScores b o capPiece sq).kingSq = b.kingSq := rfl

@[simp] lemma mkCaptureScores_side (b : Board) (o capPiece sq : Nat) :
    (mkCaptureScores b o capPiece sq).side = b.side := rfl

@[simp] lemma mkCaptureScores_castling (b : Board) (o capPiece sq : Nat) :
    (mkCaptureScores b o capPiece sq).castling = b.castling := rfl

@[simp] lemma mkCaptureScores_epSquare (b : Board) (o capPiece sq : Nat) :
    (mkCaptureScores b o capPiece sq).epSquare = b.epSquare := rfl

@[simp] lemma mkCaptureScores_halfmove (b : Board) (o capPiece sq : Nat) :
    (mkCaptureScores b o capPiece sq).halfmove = b.halfmove := rfl

@[simp] lemma mkCaptureScores_fullmove (b : Board) (o capPiece sq : Nat) :
    (mkCaptureScores b o capPiece sq).fullmove = b.fullmove := rfl

@[simp] lemma mkDropPiece_squares (b : Board) (s piece sq : Nat) :
    (mkDropPiece b s piece sq).squares = b.squares := rfl

@[simp] lemma mkDropPiece_pieceList (b : Board) (s piece sq : Nat) :
    (mkDropPiece b s piece sq).pieceList = b.pieceList := rfl

@[simp] lemma mkDropPiece_pieceIndex (b : Board) (s piece sq : Nat) :
    (mkDropPiece b s piece sq).pieceIndex = b.pieceIndex := rfl

@[simp] lemma mkDropPiece_pieceCount (b : Board) (s piece sq : Nat) :
    (mkDropPiece b s piece sq).pieceCount = b.pieceCount := rfl

@[simp] lemma mkDropPiece_bishopCount (b : Board) (s piece sq : Nat) :
    (mkDropPiece b s piece sq).bishopCount = b.bishopCount := rfl

@[simp] lemma mkDropPiece_kingSq (b : Board) (s piece sq : Nat) :
    (mkDropPiece b s piece sq).kingSq = b.kingSq := rfl

@[simp] lemma mkDropPiece_side (b : Board) (s piece sq : Nat) :
    (mkDropPiece b s piece sq).side = b.side := rfl

@[simp] lemma mkDropPiece_castling (b : Board) (s piece sq : Nat) :
    (mkDropPiece b s piece sq).castling = b.castling := rfl

@[simp] lemma mkDropPiece_epSquare (b : Board) (s piece sq : Nat) :
    (mkDropPiece b s piece sq).epSquare = b.epSquare := rfl

@[simp] lemma mkDropPiece_halfmove (b : Board) (s piece sq : Nat) :
    (mkDropPiece b s piece sq).halfmove = b.halfmove := rfl

@[simp] lemma mkDropPiece_fullmove (b : Board) (s piece sq : Nat) :
    (mkDropPiece b s piece sq).fullmove = b.fullmove := rfl

@[simp] lemma mkDropPiece_phase (b : Board) (s piece sq : Nat) :
    (mkDropPiece b s piece sq).phase = b.phase := rfl

@[simp] lemma mkRights_squares (b : Board) (fromSq toSq : Nat) :
    (mkRights b fromSq toSq).squares = b.squares := by unfold mkRights; simp

@[simp] lemma mkRights_pieceList (b : Board) (fromSq toSq : Nat) :
    (mkRights b fromSq toSq).pieceList = b.pieceList := by unfold mkRights; simp

@[simp] lemma mkRights_pieceIndex (b : Board) (fromSq toSq : Nat) :
    (mkRights b fromSq toSq).pieceIndex = b.pieceIndex := by unfold mkRights; simp

@[simp] lemma mkRights_pieceCount (b : Board) (fromSq toSq : Nat) :
    (mkRights b fromSq toSq).pieceCount = b.pieceCount := by unfold mkRights; simp

@[simp] lemma mkRights_bishopCount (b : Board) (fromSq toSq : Nat) :
    (mkRights b fromSq toSq).bishopCount = b.bishopCount := by unfold mkRights; simp

@[simp] lemma mkRights_kingSq (b : Board) (fromSq toSq : Nat) :
    (mkRights b fromSq toSq).kingSq = b.kingSq := by unfold mkRights; simp

@[simp] lemma mkRights_side (b : Board) (fromSq toSq : Nat) :
    (mkRights b fromSq toSq).side = b.side := by unfold mkRights; simp

@[simp] lemma mkRights_epSquare (b : Board) (fromSq toSq : Nat) :
    (mkRights b fromSq toSq).epSquare = b.epSquare := by unfold mkRights; simp

@[simp] lemma mkRights_halfmove (b : Board) (fromSq toSq : Nat) :
    (mkRights b fromSq toSq).halfmove = b.halfmove := by unfold mkRights; simp

@[simp] lemma mkRights_fullmove (b : Board) (fromSq toSq : Nat) :
    (mkRights b fromSq toSq).fullmove = b.fullmove := by unfold mkRights; simp

@[simp] lemma mkRights_pawnHash (b : Board) (fromSq toSq : Nat) :
    (mkRights b fromSq toSq).pawnHash = b.pawnHash := by unfold mkRights; simp

@[simp] lemma mkRights_mg (b : Board) (fromSq toSq : Nat) :
    (mkRights b fromSq toSq).mg = b.mg := by unfold mkRights; simp

@[simp] lemma mkRights_eg (b : Board) (fromSq toSq : Nat) :
    (mkRights b fromSq toSq).eg = b.eg := by unfold mkRights; simp

@[simp] lemma mkRights_phase (b : Board) (fromSq toSq : Nat) :
    (mkRights b fromSq toSq).phase = b.phase := by unfold mkRights; simp

@[simp] lemma mkEpSq_squares (b : Board) (side flags fromSq : Nat) :
    (mkEpSq b side flags fromSq).squares = b.squares := by unfold mkEpSq; simp

@[simp] lemma mkEpSq_pieceList (b : Board) (side flags fromSq : Nat) :
    (mkEpSq b side flags fromSq).pieceList = b.pieceList := by unfold mkEpSq; simp

@[simp] lemma mkEpSq_pieceIndex (b : Board) (side flags fromSq : Nat) :
    (mkEpSq b side flags fromSq).pieceIndex = b.pieceIndex := by unfold mkEpSq; simp

@[simp] lemma mkEpSq_pieceCount (b : Board) (side flags fromSq : Nat) :
    (mkEpSq b side flags fromSq).pieceCount = b.pieceCount := by unfold mkEpSq; simp

@[simp] lemma mkEpSq_bishopCount (b : Board) (side flags fromSq : Nat) :
    (mkEpSq b side flags fromSq).bishopCount = b.bishopCount := by unfold mkEpSq; simp

@[simp] lemma mkEpSq_kingSq (b : Board) (side flags fromSq : Nat) :
    (mkEpSq b side flags fromSq).kingSq = b.kingSq := by unfold mkEpSq; simp

@[simp] lemma mkEpSq_side (b : Board) (side flags fromSq : Nat) :
    (mkEpSq b side flags fromSq).side = b.side := by unfold mkEpSq; simp

@[simp] lemma mkEpSq_castling (b : Board) (side flags fromSq : Nat) :
    (mkEpSq b side flags fromSq).castling = b.castling := by unfold mkEpSq; simp

@[simp] lemma mkEpSq_halfmove (b : Board) (side flags fromSq : Nat) :
    (mkEpSq b side flags fromSq).halfmove = b.halfmove := by unfold mkEpSq; simp

@[simp] lemma mkEpSq_fullmove (b : Board) (side flags fromSq : Nat) :
    (mkEpSq b side flags fromSq).fullmove = b.fullmove := by unfold mkEpSq; simp

@[simp] lemma mkEpSq_pawnHash (b : Board) (side flags fromSq : Nat) :
    (mkEpSq b side flags fromSq).pawnHash = b.pawnHash := by unfold mkEpSq; simp

@[simp] lemma mkEpSq_mg (b : Board) (side flags fromSq : Nat) :
    (mkEpSq b side flags fromSq).mg = b.mg := by unfold mkEpSq; simp

@[simp] lemma mkEpSq_eg (b : Board) (side flags fromSq : Nat) :
    (mkEpSq b side flags fromSq).eg = b.eg := by unfold mkEpSq; simp

@[simp] lemma mkEpSq_phase (b : Board) (side flags fromSq : Nat) :
    (mkEpSq b side flags fromSq).phase = b.phase := by unfold mkEpSq; simp

@[simp] lemma mkFlip_squares (b : Board) :
    (mkFlip b).squares = b.squares := rfl

@[simp] lemma mkFlip_pieceList (b : Board) :
    (mkFlip b).pieceList = b.pieceList := rfl

@[simp] lemma mkFlip_pieceIndex (b : Board) :
    (mkFlip b).pieceIndex = b.pieceIndex := rfl

@[simp] lemma mkFlip_pieceCount (b : Board) :
    (mkFlip b).pieceCount = b.pieceCount := rfl

@[simp] lemma mkFlip_bishopCount (b : Board) :
    (mkFlip b).bishopCount = b.bishopCount := rfl

@[simp] lemma mkFlip_kingSq (b : Board) :
    (mkFlip b).kingSq = b.kingSq := rfl

@[simp] lemma mkFlip_castling (b : Board) :
    (mkFlip b).castling = b.castling := rfl

@[simp] lemma mkFlip_epSquare (b : Board) :
    (mkFlip b).epSquare = b.epSquare := rfl

@[simp] lemma mkFlip_halfmove (b : Board) :
    (mkFlip b).halfmove = b.halfmove := rfl

@[simp] lemma mkFlip_fullmove (b : Board) :
    (mkFlip b).fullmove = b.fullmove := rfl

@[simp] lemma mkFlip_pawnHash (b : Board) :
    (mkFlip b).pawnHash = b.pawnHash := rfl

@[simp] lemma mkFlip_mg (b : Board) :
    (mkFlip b).mg = b.mg := rfl

@[simp] lemma mkFlip_eg (b : Board) :
    (mkFlip b).eg = b.eg := rfl

@[simp] lemma mkFlip_phase (b : Board) :
    (mkFlip b).phase = b.phase := rfl

@[simp] lemma plistRemove_squares (b : Board) (side sq : Nat) :
    (plistRemove b side sq).squares = b.squares := by unfold plistRemove; simp

@[simp] lemma plistRemove_bishopCount (b : Board) (side sq : Nat) :
    (plistRemove b side sq).bishopCount = b.bishopCount := by unfold plistRemove; simp

@[simp] lemma plistRemove_kingSq (b : Board) (side sq : Nat) :
    (plistRemove b side sq).kingSq = b.kingSq := by unfold plistRemove; simp

@[simp] lemma plistRemove_side (b : Board) (side sq : Nat) :
    (plistRemove b side sq).side = b.side := by unfold plistRemove; simp

@[simp] lemma plistRemove_castling (b : Board) (side sq : Nat) :
    (plistRemove b side sq).castling = b.castling := by unfold plistRemove; simp

@[simp] lemma plistRemove_epSquare (b : Board) (side sq : Nat) :
    (plistRemove b side sq).epSquare = b.epSquare := by unfold plistRemove; simp

@[simp] lemma plistRemove_halfmove (b : Board) (side sq : Nat) :
    (plistRemove b side sq).halfmove = b.halfmove := by unfold plistRemove; simp

@[simp] lemma plistRemove_fullmove (b : Board) (side sq : Nat) :
    (plistRemove b side sq).fullmove = b.fullmove := by unfold plistRemove; simp

@[simp] lemma plistRemove_pawnHash (b : Board) (side sq : Nat) :
    (plistRemove b side sq).pawnHash = b.pawnHash := by unfold plistRemove; simp

@[simp] lemma plistRemove_hash (b : Board) (side sq : Nat) :
    (plistRemove b side sq).hash = b.hash := by unfold plistRemove; simp

@[simp] lemma plistRemove_lock (b : Board) (side sq : Nat) :
    (plistRemove b side sq).lock = b.lock := by unfold plistRemove; simp

@[simp] lemma plistRemove_mg (b : Board) (side sq : Nat) :
    (plistRemove b side sq).mg = b.mg := by unfold plistRemove; simp

@[simp] lemma plistRemove_eg (b : Board) (side sq : Nat) :
    (plistRemove b side sq).eg = b.eg := by unfold plistRemove; simp

@[simp] lemma plistRemove_phase (b : Board) (side sq : Nat) :
    (plistRemove b side sq).phase = b.phase := by unfold plistRemove; simp

@[simp] lemma plistMove_squares (b : Board) (side oldSq newSq : Nat) :
    (plistMove b side oldSq newSq).squares = b.squares := by unfold plistMove; simp

@[simp] lemma plistMove_pieceCount (b : Board) (side oldSq newSq : Nat) :
    (plistMove b side oldSq newSq).pieceCount = b.pieceCount := by unfold plistMove; simp

@[simp] lemma plistMove_bishopCount (b : Board) (side oldSq newSq : Nat) :
    (plistMove b side oldSq newSq).bishopCount = b.bishopCount := by unfold plistMove; simp

@[simp] lemma plistMove_kingSq (b : Board) (side oldSq newSq : Nat) :
    (plistMove b side oldSq newSq).kingSq = b.kingSq := by unfold plistMove; simp

@[simp] lemma plistMove_side (b : Board) (side oldSq newSq : Nat) :
    (plistMove b side oldSq newSq).side = b.side := by unfold plistMove; simp

@[simp] lemma plistMove_castling (b : Board) (side oldSq newSq : Nat) :
    (plistMove b side oldSq newSq).castling = b.castling := by unfold plistMove; simp

@[simp] lemma plistMove_epSquare (b : Board) (side oldSq newSq : Nat) :
    (plistMove b side oldSq newSq).epSquare = b.epSquare := by unfold plistMove; simp

@[simp] lemma plistMove_halfmove (b : Board) (side oldSq newSq : Nat) :
    (plistMove b side oldSq newSq).halfmove = b.halfmove := by unfold plistMove; simp

@[simp] lemma plistMove_fullmove (b : Board) (side oldSq newSq : Nat) :
    (plistMove b side oldSq newSq).fullmove = b.fullmove := by unfold plistMove; simp

@[simp] lemma plistMove_pawnHash (b : Board) (side oldSq newSq : Nat) :
    (plistMove b side oldSq newSq).pawnHash = b.pawnHash := by unfold plistMove; simp

@[simp] lemma plistMove_hash (b : Board) (side oldSq newSq : Nat) :
    (plistMove b side oldSq newSq).hash = b.hash := by unfold plistMove; simp

@[simp] lemma plistMove_lock (b : Board) (side oldSq newSq : Nat) :
    (plistMove b side oldSq newSq).lock = b.lock := by unfold plistMove; simp

@[simp] lemma plistMove_mg (b : Board) (side oldSq newSq : Nat) :
    (plistMove b side oldSq newSq).mg = b.mg := by unfold plistMove; simp

@[simp] lemma plistMove_eg (b : Board) (side oldSq newSq : Nat) :
    (plistMove b side oldSq newSq).eg = b.eg := by unfold plistMove; simp

@[simp] lemma plistMove_phase (b : Board) (side oldSq newSq : Nat) :
    (plistMove b side oldSq newSq).phase = b.phase := by unfold plistMove; simp

@[simp] lemma unMoveEval_squares (b : Board) (side piece fromSq toSq : Nat) :
    (unMoveEval b side piece fromSq toSq).squares = b.squares := rfl

@[simp] lemma unMoveEval_pieceList (b : Board) (side piece fromSq toSq : Nat) :
    (unMoveEval b side piece fromSq toSq).pieceList = b.pieceList := rfl

@[simp] lemma unMoveEval_pieceIndex (b : Board) (side piece fromSq toSq : Nat) :
    (unMoveEval b side piece fromSq toSq).pieceIndex = b.pieceIndex := rfl

@[simp] lemma unMoveEval_pieceCount (b : Board) (side piece fromSq toSq : Nat) :
    (unMoveEval b side piece fromSq toSq).pieceCount = b.pieceCount := rfl

@[simp] lemma unMoveEval_bishopCount (b : Board) (side piece fromSq toSq : Nat) :
    (unMoveEval b side piece fromSq toSq).bishopCount = b.bishopCount := rfl

@[simp] lemma unMoveEval_kingSq (b : Board) (side piece fromSq toSq : Nat) :
    (unMoveEval b side piece fromSq toSq).kingSq = b.kingSq := rfl

@[simp] lemma unMoveEval_side (b : Board) (side piece fromSq toSq : Nat) :
    (unMoveEval b side piece fromSq toSq).side = b.side := rfl

@[simp] lemma unMoveEval_castling (b : Board) (side piece fromSq toSq : Nat) :
    (unMoveEval b side piece fromSq toSq).castling = b.castling := rfl

@[simp] lemma unMoveEval_epSquare (b : Board) (side piece fromSq toSq : Nat) :
    (unMoveEval b side piece fromSq toSq).epSquare = b.epSquare := rfl

@[simp] lemma unMoveEval_halfmove (b : Board) (side piece fromSq toSq : Nat) :
    (unMoveEval b side piece fromSq toSq).halfmove = b.halfmove := rfl

@[simp] lemma unMoveEval_fullmove (b : Board) (side piece fromSq toSq : Nat) :
    (unMoveEval b side piece fromSq toSq).fullmove = b.fullmove := rfl

@[simp] lemma unMoveEval_pawnHash (b : Board) (side piece fromSq toSq : Nat) :
    (unMoveEval b side piece fromSq toSq).pawnHash = b.pawnHash := rfl

@[simp] lemma unMoveEval_hash (b : Board) (side piece fromSq toSq : Nat) :
    (unMoveEval b side piece fromSq toSq).hash = b.hash := rfl

@[simp] lemma unMoveEval_lock (b : Board) (side piece fromSq toSq : Nat) :
    (unMoveEval b side piece fromSq toSq).lock = b.lock := rfl

@[simp] lemma unMoveEval_phase (b : Board) (side piece fromSq toSq : Nat) :
    (unMoveEval b side piece fromSq toSq).phase = b.phase := rfl

@[simp] lemma unCapScores_squares (b : Board) (o captured sq : Nat) :
    (unCapScores b o captured sq).squares = b.squares := rfl

@[simp] lemma unCapScores_pieceList (b : Board) (o captured sq : Nat) :
    (unCapScores b o captured sq).pieceList = b.pieceList := rfl

@[simp] lemma unCapScores_pieceIndex (b : Board) (o captured sq : Nat) :
    (unCapScores b o captured sq).pieceIndex = b.pieceIndex := rfl

@[simp] lemma unCapScores_pieceCount (b : Board) (o captured sq : Nat) :
    (unCapScores b o captured sq).pieceCount = b.pieceCount := rfl

@[simp] lemma unCapScores_kingSq (b : Board) (o captured sq : Nat) :
    (unCapScores b o captured sq).kingSq = b.kingSq := rfl

@[simp] lemma unCapScores_side (b : Board) (o captured sq : Nat) :
    (unCapScores b o captured sq).side = b.side := rfl

@[simp] lemma unCapScores_castling (b : Board) (o captured sq : Nat) :
    (unCapScores b o captured sq).castling = b.castling := rfl

@[simp] lemma unCapScores_epSquare (b : Board) (o captured sq : Nat) :
    (unCapScores b o captured sq).epSquare = b.epSquare := rfl

@[simp] lemma unCapScores_halfmove (b : Board) (o captured sq : Nat) :
    (unCapScores b o captured sq).halfmove = b.halfmove := rfl

@[simp] lemma unCapScores_fullmove (b : Board) (o captured sq : Nat) :
    (unCapScores b o captured sq).fullmove = b.fullmove := rfl

@[simp] lemma unCapScores_pawnHash (b : Board) (o captured sq : Nat) :
    (unCapScores b o captured sq).pawnHash = b.pawnHash := rfl

@[simp] lemma unCapScores_hash (b : Board) (o captured sq : Nat) :
    (unCapScores b o captured sq).hash = b.hash := rfl

@[simp] lemma unCapScores_lock (b : Board) (o captured sq : Nat) :
    (unCapScores b o captured sq).lock = b.lock := rfl

@[simp] lemma unCapReplace_bishopCount (b : Board) (o captured sq : Nat) :
    (unCapReplace b o captured sq).bishopCount = b.bishopCount := rfl

@[simp] lemma unCapReplace_kingSq (b : Board) (o captured sq : Nat) :
    (unCapReplace b o captured sq).kingSq = b.kingSq := rfl

@[simp] lemma unCapReplace_side (b : Board) (o captured sq : Nat) :
    (unCapReplace b o captured sq).side = b.side := rfl

@[simp] lemma unCapReplace_castling (b : Board) (o captured sq : Nat) :
    (unCapReplace b o captured sq).castling = b.castling := rfl

@[simp] lemma unCapReplace_epSquare (b : Board) (o captured sq : Nat) :
    (unCapReplace b o captured sq).epSquare = b.epSquare := rfl

@[simp] lemma unCapReplace_halfmove (b : Board) (o captured sq : Nat) :
    (unCapReplace b o captured sq).halfmove = b.halfmove := rfl

@[simp] lemma unCapReplace_fullmove (b : Board) (o captured sq : Nat) :
    (unCapReplace b o captured sq).fullmove = b.fullmove := rfl

@[simp] lemma unCapReplace_pawnHash (b : Board) (o captured sq : Nat) :
    (unCapReplace b o captured sq).pawnHash = b.pawnHash := rfl

@[simp] lemma unCapReplace_hash (b : Board) (o captured sq : Nat) :
    (unCapReplace b o captured sq).hash = b.hash := rfl

@[simp] lemma unCapReplace_lock (b : Board) (o captured sq : Nat) :
    (unCapReplace b o captured sq).lock = b.lock := rfl

@[simp] lemma unCapReplace_mg (b : Board) (o captured sq : Nat) :
    (unCapReplace b o captured sq).mg = b.mg := rfl

@[simp] lemma unCapReplace_eg (b : Board) (o captured sq : Nat) :
    (unCapReplace b o captured sq).eg = b.eg := rfl

@[simp] lemma unCapReplace_phase (b : Board) (o captured sq : Nat) :
    (unCapReplace b o captured sq).phase = b.phase := rfl

@[simp] lemma mkPromo_pieceList (b : Board) (side piece flags toSq : Nat) :
    (mkPromo b side piece flags toSq).pieceList = b.pieceList := by unfold mkPromo; simp

@[simp] lemma mkPromo_pieceIndex (b : Board) (side piece flags toSq : Nat) :
    (mkPromo b side piece flags toSq).pieceIndex = b.pieceIndex := by unfold mkPromo; simp

@[simp] lemma mkPromo_pieceCount (b : Board) (side piece flags toSq : Nat) :
    (mkPromo b side piece flags toSq).pieceCount = b.pieceCount := by unfold mkPromo; simp

@[simp] lemma mkPromo_kingSq (b : Board) (side piece flags toSq : Nat) :
    (mkPromo b side piece flags toSq).kingSq = b.kingSq := by unfold mkPromo; simp

@[simp] lemma mkPromo_side (b : Board) (side piece flags toSq : Nat) :
    (mkPromo b side piece flags toSq).side = b.side := by unfold mkPromo; simp

@[simp] lemma mkPromo_castling (b : Board) (side piece flags toSq : Nat) :
    (mkPromo b side piece flags toSq).castling = b.castling := by unfold mkPromo; simp

@[simp] lemma mkPromo_epSquare (b : Board) (side piece flags toSq : Nat) :
    (mkPromo b side piece flags toSq).epSquare = b.epSquare := by unfold mkPromo; simp

@[simp] lemma mkPromo_halfmove (b : Board) (side piece flags toSq : Nat) :
    (mkPromo b side piece flags toSq).halfmove = b.halfmove := by unfold mkPromo; simp

@[simp] lemma mkPromo_fullmove (b : Board) (side piece flags toSq : Nat) :
    (mkPromo b side piece flags toSq).fullmove = b.fullmove := by unfold mkPromo; simp

@[simp] lemma unPromo_pieceList (b : Board) (side piece flags toSq : Nat) :
    (unPromo b side piece flags toSq).pieceList = b.pieceList := by unfold unPromo; simp

@[simp] lemma unPromo_pieceIndex (b : Board) (side piece flags toSq : Nat) :
    (unPromo b side piece flags toSq).pieceIndex = b.pieceIndex := by unfold unPromo; simp

@[simp] lemma unPromo_pieceCount (b : Board) (side piece flags toSq : Nat) :
    (unPromo b side piece flags toSq).pieceCount = b.pieceCount := by unfold unPromo; simp

@[simp] lemma unPromo_kingSq (b : Board) (side piece flags toSq : Nat) :
    (unPromo b side piece flags toSq).kingSq = b.kingSq := by unfold unPromo; simp

@[simp] lemma unPromo_side (b : Board) (side piece flags toSq : Nat) :
    (unPromo b side piece flags toSq).side = b.side := by unfold unPromo; simp

@[simp] lemma unPromo_castling (b : Board) (side piece flags toSq : Nat) :
    (unPromo b side piece flags toSq).castling = b.castling := by unfold unPromo; simp

@[simp] lemma unPromo_epSquare (b : Board) (side piece flags toSq : Nat) :
    (unPromo b side piece flags toSq).epSquare = b.epSquare := by unfold unPromo; simp

@[simp] lemma unPromo_halfmove (b : Board) (side piece flags toSq : Nat) :
    (unPromo b side piece flags toSq).halfmove = b.halfmove := by unfold unPromo; simp

@[simp] lemma unPromo_fullmove (b : Board) (side piece flags toSq : Nat) :
    (unPromo b side piece flags toSq).fullmove = b.fullmove := by unfold unPromo; simp

@[simp] lemma unPromo_pawnHash (b : Board) (side piece flags toSq : Nat) :
    (unPromo b side piece flags toSq).pawnHash = b.pawnHash := by unfold unPromo; simp

@[simp] lemma unPromo_hash (b : Board) (side piece flags toSq : Nat) :
    (unPromo b side piece flags toSq).hash = b.hash := by unfold unPromo; simp

@[simp] lemma unPromo_lock (b : Board) (side piece flags toSq : Nat) :
    (unPromo b side piece flags toSq).lock = b.lock := by unfold unPromo; simp

@[simp] lemma mkMovePiece_pieceCount (b : Board) (side piece fromSq toSq : Nat) :
    (mkMovePiece b side piece fromSq toSq).pieceCount = b.pieceCount := by unfold mkMovePiece; simp

@[simp] lemma mkMovePiece_bishopCount (b : Board) (side piece fromSq toSq : Nat) :
    (mkMovePiece b side piece fromSq toSq).bishopCount = b.bishopCount := by unfold mkMovePiece; simp

@[simp] lemma mkMovePiece_kingSq (b : Board) (side piece fromSq toSq : Nat) :
    (mkMovePiece b side piece fromSq toSq).kingSq = b.kingSq := by unfold mkMovePiece; simp

@[simp] lemma mkMovePiece_side (b : Board) (side piece fromSq toSq : Nat) :
    (mkMovePiece b side piece fromSq toSq).side = b.side := by unfold mkMovePiece; simp

@[simp] lemma mkMovePiece_castling (b : Board) (side piece fromSq toSq : Nat) :
    (mkMovePiece b side piece fromSq toSq).castling = b.castling := by unfold mkMovePiece; simp

@[simp] lemma mkMovePiece_epSquare (b : Board) (side piece fromSq toSq : Nat) :
    (mkMovePiece b side piece fromSq toSq).epSquare = b.epSquare := by unfold mkMovePiece; simp

@[simp] lemma mkMovePiece_halfmove (b : Board) (side piece fromSq toSq : Nat) :
    (mkMovePiece b side piece fromSq toSq).halfmove = b.halfmove := by unfold mkMovePiece; simp

@[simp] lemma mkMovePiece_fullmove (b : Board) (side piece fromSq toSq : Nat) :
    (mkMovePiece b side piece fromSq toSq).fullmove = b.fullmove := by unfold mkMovePiece; simp

@[simp] lemma mkMovePiece_pawnHash (b : Board) (side piece fromSq toSq : Nat) :
    (mkMovePiece b side piece fromSq toSq).pawnHash = b.pawnHash := by unfold mkMovePiece; simp

@[simp] lemma mkMovePiece_hash (b : Board) (side piece fromSq toSq : Nat) :
    (mkMovePiece b side piece fromSq toSq).hash = b.hash := by unfold mkMovePiece; simp

@[simp] lemma mkMovePiece_lock (b : Board) (side piece fromSq toSq : Nat) :
    (mkMovePiece b side piece fromSq toSq).lock = b.lock := by unfold mkMovePiece; simp

@[simp] lemma mkMovePiece_mg (b : Board) (side piece fromSq toSq : Nat) :
    (mkMovePiece b side piece fromSq toSq).mg = b.mg := by unfold mkMovePiece; simp

@[simp] lemma mkMovePiece_eg (b : Board) (side piece fromSq toSq : Nat) :
    (mkMovePiece b side piece fromSq toSq).eg = b.eg := by unfold mkMovePiece; simp

@[simp] lemma mkMovePiece_phase (b : Board) (side piece fromSq toSq : Nat) :
    (mkMovePiece b side piece fromSq toSq).phase = b.phase := by unfold mkMovePiece; simp

@[simp] lemma mkCastle_pieceCount (b : Board) (side fromSq toSq : Nat) :
    (mkCastle b side fromSq toSq).pieceCount = b.pieceCount := by unfold mkCastle; simp

@[simp] lemma mkCastle_bishopCount (b : Board) (side fromSq toSq : Nat) :
    (mkCastle b side fromSq toSq).bishopCount = b.bishopCount := by unfold mkCastle; simp

@[simp] lemma mkCastle_kingSq (b : Board) (side fromSq toSq : Nat) :
    (mkCastle b side fromSq toSq).kingSq = b.kingSq := by unfold mkCastle; simp

@[simp] lemma mkCastle_side (b : Board) (side fromSq toSq : Nat) :
    (mkCastle b side fromSq toSq).side = b.side := by unfold mkCastle; simp

@[simp] lemma mkCastle_castling (b : Board) (side fromSq toSq : Nat) :
    (mkCastle b side fromSq toSq).castling = b.castling := by unfold mkCastle; simp

@[simp] lemma mkCastle_epSquare (b : Board) (side fromSq toSq : Nat) :
    (mkCastle b side fromSq toSq).epSquare = b.epSquare := by unfold mkCastle; simp

@[simp] lemma mkCastle_halfmove (b : Board) (side fromSq toSq : Nat) :
    (mkCastle b side fromSq toSq).halfmove = b.halfmove := by unfold mkCastle; simp

@[simp] lemma mkCastle_fullmove (b : Board) (side fromSq toSq : Nat) :
    (mkCastle b side fromSq toSq).fullmove = b.fullmove := by unfold mkCastle; simp

@[simp] lemma mkCastle_pawnHash (b : Board) (side fromSq toSq : Nat) :
    (mkCastle b side fromSq toSq).pawnHash = b.pawnHash := by unfold mkCastle; simp

@[simp] lemma mkCastle_phase (b : Board) (side fromSq toSq : Nat) :
    (mkCastle b side fromSq toSq).phase = b.phase := by unfold mkCastle; simp

@[simp] lemma unCastle_pieceCount (b : Board) (side fromSq toSq : Nat) :
    (unCastle b side fromSq toSq).pieceCount = b.pieceCount := by unfold unCastle; simp

@[simp] lemma unCastle_bishopCount (b : Board) (side fromSq toSq : Nat) :
    (unCastle b side fromSq toSq).bishopCount = b.bishopCount := by unfold unCastle; simp

@[simp] lemma unCastle_kingSq (b : Board) (side fromSq toSq : Nat) :
    (unCastle b side fromSq toSq).kingSq = b.kingSq := by unfold unCastle; simp

@[simp] lemma unCastle_side (b : Board) (side fromSq toSq : Nat) :
    (unCastle b side fromSq toSq).side = b.side := by unfold unCastle; simp

@[simp] lemma unCastle_castling (b : Board) (side fromSq toSq : Nat) :
    (unCastle b side fromSq toSq).castling = b.castling := by unfold unCastle; simp

@[simp] lemma unCastle_epSquare (b : Board) (side fromSq toSq : Nat) :
    (unCastle b side fromSq toSq).epSquare = b.epSquare := by unfold unCastle; simp

@[simp] lemma unCastle_halfmove (b : Board) (side fromSq toSq : Nat) :
    (unCastle b side fromSq toSq).halfmove = b.halfmove := by unfold unCastle; simp

@[simp] lemma unCastle_fullmove (b : Board) (side fromSq toSq : Nat) :
    (unCastle b side fromSq toSq).fullmove = b.fullmove := by unfold unCastle; simp

@[simp] lemma unCastle_pawnHash (b : Board) (side fromSq toSq : Nat) :
    (unCastle b side fromSq toSq).pawnHash = b.pawnHash := by unfold unCastle; simp

@[simp] lemma unCastle_hash (b : Board) (side fromSq toSq : Nat) :
    (unCastle b side fromSq toSq).hash = b.hash := by unfold unCastle; simp

@[simp] lemma unCastle_lock (b : Board) (side fromSq toSq : Nat) :
    (unCastle b side fromSq toSq).lock = b.lock := by unfold unCastle; simp

@[simp] lemma unCastle_phase (b : Board) (side fromSq toSq : Nat) :
    (unCastle b side fromSq toSq).phase = b.phase := by unfold unCastle; simp

@[simp] lemma mkCapture_squares (b : Board) (opp toSq captured : Nat) :
    (mkCapture b opp toSq captured).squares = b.squares := by unfold mkCapture; simp

@[simp] lemma mkCapture_kingSq (b : Board) (opp toSq captured : Nat) :
    (mkCapture b opp toSq captured).kingSq = b.kingSq := by unfold mkCapture; simp

@[simp] lemma mkCapture_side (b : Board) (opp toSq captured : Nat) :
    (mkCapture b opp toSq captured).side = b.side := by unfold mkCapture; simp

@[simp] lemma mkCapture_castling (b : Board) (opp toSq captured : Nat) :
    (mkCapture b opp toSq captured).castling = b.castling := by unfold mkCapture; simp

@[simp] lemma mkCapture_epSquare (b : Board) (opp toSq captured : Nat) :
    (mkCapture b opp toSq captured).epSquare = b.epSquare := by unfold mkCapture; simp

@[simp] lemma mkCapture_halfmove (b : Board) (opp toSq captured : Nat) :
    (mkCapture b opp toSq captured).halfmove = b.halfmove := by unfold mkCapture; simp

@[simp] lemma mkCapture_fullmove (b : Board) (opp toSq captured : Nat) :
    (mkCapture b opp toSq captured).fullmove = b.fullmove := by unfold mkCapture; simp

@[simp] lemma mkEpCapture_kingSq (b : Board) (opp capSq : Nat) :
    (mkEpCapture b opp capSq).kingSq = b.kingSq := by unfold mkEpCapture; simp

@[simp] lemma mkEpCapture_side (b : Board) (opp capSq : Nat) :
    (mkEpCapture b opp capSq).side = b.side := by unfold mkEpCapture; simp

@[simp] lemma mkEpCapture_castling (b : Board) (opp capSq : Nat) :
    (mkEpCapture b opp capSq).castling = b.castling := by unfold mkEpCapture; simp

@[simp] lemma mkEpCapture_epSquare (b : Board) (opp capSq : Nat) :
    (mkEpCapture b opp capSq).epSquare = b.epSquare := by unfold mkEpCapture; simp

@[simp] lemma mkEpCapture_halfmove (b : Board) (opp capSq : Nat) :
    (mkEpCapture b opp capSq).halfmove = b.halfmove := by unfold mkEpCapture; simp

@[simp] lemma mkEpCapture_fullmove (b : Board) (opp capSq : Nat) :
    (mkEpCapture b opp capSq).fullmove = b.fullmove := by unfold mkEpCapture; simp


/-! Explicit forms of the piece-list operations when their validity
guards pass, and of the guarded stages of make/unmake. -/

lemma plistMove_eq (b : Board) (s o n : Nat)
    (h1 : b.pieceIndex o ≠ PLIST_INVALID) (h2 : b.pieceIndex o < b.pieceCount s) :
    plistMove b s o n =
      { b with pieceList := updPL b.pieceList s (b.pieceIndex o) n,
               pieceIndex := upd (upd b.pieceIndex n (b.pieceIndex o)) o PLIST_INVALID } := by
  unfold plistMove
  rw [if_neg]
  push_neg
  exact ⟨h1, h2⟩

lemma plistRemove_eq (b : Board) (s sq : Nat)
    (h1 : b.pieceIndex sq ≠ PLIST_INVALID) (h2 : b.pieceIndex sq < b.pieceCount s) :
    plistRemove b s sq =
      (let lastIdx := b.pieceCount s - 1
       let lastSq := b.pieceList s lastIdx
       let b1 : Board := { b with pieceCount := upd b.pieceCount s lastIdx }
       let b2 : Board :=
        if b.pieceIndex sq ≠ lastIdx then
          { b1 with pieceList := updPL b1.pieceList s (b.pieceIndex sq) lastSq,
                    pieceIndex := upd b1.pieceIndex lastSq (b.pieceIndex sq) }
        else b1
       { b2 with pieceIndex := upd b2.pieceIndex sq PLIST_INVALID }) := by
  unfold plistRemove
  rw [if_neg]
  push_neg
  exact ⟨h1, h2⟩

end CE
